import Mathlib

/-!
# SerialLib: a shallow embedding of `SerialPort.cpp`

The C++ class `Serial::SerialPort` (fields `fd_`, `device_`, `lastError_`) is
embedded as a record, and each member function as a pure function that takes
the object, the outside world and the call's arguments and gives back the
return value, the new object and the new world.

The world is whatever operating system sits below the class: an arbitrary
state type `σ` with one transition function per system call the class issues
(`OS σ`).  Quantifying over `OS σ` and its state is quantifying over every
outcome of the system calls.  Each call issued is also appended to a log, so
that what was requested from the kernel can be stated.

Machine integers: `tcflag_t` words are naturals below `2 ^ 32` with the
complement taken inside 32 bits, `cc_t` cells are naturals reduced modulo
`2 ^ 8` on store, `int` is `Int` with the narrowing conversion from `ssize_t`
written out (`toInt32`), and `size_t` counts are naturals.  Strings are lists
of bytes.  Of the heap, the one allocation whose size the caller chooses is
modelled, `result.reserve(maxBytes)` in the string read: it may throw, and the
member function then returns no string (`Thrown`).
-/

namespace Serial

/-! ## Bytes and machine integers -/

/-- One `char` of a buffer or of a `std::string`. -/
abbrev Byte := UInt8

/-- The conversion `static_cast<int>` of a non-negative `ssize_t` count:
reduction modulo `2 ^ 32` read as a two's-complement 32-bit value. -/
def toInt32 (n : Nat) : Int :=
  if n % 4294967296 < 2147483648 then ((n % 4294967296 : Nat) : Int)
  else ((n % 4294967296 : Nat) : Int) - 4294967296

/-- The conversion of an `int` to `cc_t` (`unsigned char`): reduction modulo `2 ^ 8`. -/
def toCcT (x : Int) : Nat := (x % 256).toNat

/-- The complement `~m` as it acts on a 32-bit `tcflag_t` word. -/
def compl32 (m : Nat) : Nat := 4294967295 ^^^ (m % 4294967296)

/-! ## Constants of `<termios.h>` and `<fcntl.h>`

These come from the system headers the source includes, not from the
repository; the values are those of Linux (generic architecture). -/

/-- Modelled from the spec: the constant `O_RDWR` of `<fcntl.h>`, which the repository uses and
does not define; the Linux value. -/
def O_RDWR : Nat := 0o2
/-- Modelled from the spec: the constant `O_NOCTTY` of `<fcntl.h>`, which the repository uses and
does not define; the Linux value. -/
def O_NOCTTY : Nat := 0o400
/-- Modelled from the spec: the constant `O_NONBLOCK` of `<fcntl.h>`, which the repository uses and
does not define; the Linux value. -/
def O_NONBLOCK : Nat := 0o4000

/-- Modelled from the spec: the constant `VTIME` of `<termios.h>`, which the repository uses and
does not define; the Linux value. -/
def VTIME : Nat := 5
/-- Modelled from the spec: the constant `VMIN` of `<termios.h>`, which the repository uses and
does not define; the Linux value. -/
def VMIN : Nat := 6

/-- Modelled from the spec: the constant `TCSANOW` of `<termios.h>`, which the repository uses and
does not define; the Linux value. -/
def TCSANOW : Nat := 0
/-- Modelled from the spec: the constant `TCIFLUSH` of `<termios.h>`, which the repository uses and
does not define; the Linux value. -/
def TCIFLUSH : Nat := 0
/-- Modelled from the spec: the constant `TCOFLUSH` of `<termios.h>`, which the repository uses and
does not define; the Linux value. -/
def TCOFLUSH : Nat := 1
/-- Modelled from the spec: the constant `TCIOFLUSH` of `<termios.h>`, which the repository uses and
does not define; the Linux value. -/
def TCIOFLUSH : Nat := 2

/-- Modelled from the spec: the constant `INLCR` of `<termios.h>`, which the repository uses and
does not define; the Linux value. -/
def INLCR : Nat := 0o100
/-- Modelled from the spec: the constant `IGNCR` of `<termios.h>`, which the repository uses and
does not define; the Linux value. -/
def IGNCR : Nat := 0o200
/-- Modelled from the spec: the constant `ICRNL` of `<termios.h>`, which the repository uses and
does not define; the Linux value. -/
def ICRNL : Nat := 0o400
/-- Modelled from the spec: the constant `IXON` of `<termios.h>`, which the repository uses and
does not define; the Linux value. -/
def IXON : Nat := 0o2000
/-- Modelled from the spec: the constant `IXANY` of `<termios.h>`, which the repository uses and
does not define; the Linux value. -/
def IXANY : Nat := 0o4000
/-- Modelled from the spec: the constant `IXOFF` of `<termios.h>`, which the repository uses and
does not define; the Linux value. -/
def IXOFF : Nat := 0o10000
/-- Modelled from the spec: the constant `IBAUD0` of `<termios.h>`, which the repository uses and
does not define; the Linux value. -/
def IBAUD0 : Nat := 0o20000000000

/-- Modelled from the spec: the constant `OPOST` of `<termios.h>`, which the repository uses and
does not define; the Linux value. -/
def OPOST : Nat := 0o1

/-- Modelled from the spec: the constant `ISIG` of `<termios.h>`, which the repository uses and
does not define; the Linux value. -/
def ISIG : Nat := 0o1
/-- Modelled from the spec: the constant `ICANON` of `<termios.h>`, which the repository uses and
does not define; the Linux value. -/
def ICANON : Nat := 0o2
/-- Modelled from the spec: the constant `ECHO` of `<termios.h>`, which the repository uses and
does not define; the Linux value. -/
def ECHO : Nat := 0o10
/-- Modelled from the spec: the constant `ECHOE` of `<termios.h>`, which the repository uses and
does not define; the Linux value. -/
def ECHOE : Nat := 0o20

/-- Modelled from the spec: the constant `CBAUD` of `<termios.h>`, which the repository uses and
does not define; the Linux value. -/
def CBAUD : Nat := 0o10017
/-- Modelled from the spec: the constant `CBAUDEX` of `<termios.h>`, which the repository uses and
does not define; the Linux value. -/
def CBAUDEX : Nat := 0o10000
/-- Modelled from the spec: the constant `CS5` of `<termios.h>`, which the repository uses and
does not define; the Linux value. -/
def CS5 : Nat := 0o0
/-- Modelled from the spec: the constant `CS6` of `<termios.h>`, which the repository uses and
does not define; the Linux value. -/
def CS6 : Nat := 0o20
/-- Modelled from the spec: the constant `CS7` of `<termios.h>`, which the repository uses and
does not define; the Linux value. -/
def CS7 : Nat := 0o40
/-- Modelled from the spec: the constant `CS8` of `<termios.h>`, which the repository uses and
does not define; the Linux value. -/
def CS8 : Nat := 0o60
/-- Modelled from the spec: the constant `CSTOPB` of `<termios.h>`, which the repository uses and
does not define; the Linux value. -/
def CSTOPB : Nat := 0o100
/-- Modelled from the spec: the constant `CREAD` of `<termios.h>`, which the repository uses and
does not define; the Linux value. -/
def CREAD : Nat := 0o200
/-- Modelled from the spec: the constant `PARENB` of `<termios.h>`, which the repository uses and
does not define; the Linux value. -/
def PARENB : Nat := 0o400
/-- Modelled from the spec: the constant `PARODD` of `<termios.h>`, which the repository uses and
does not define; the Linux value. -/
def PARODD : Nat := 0o1000
/-- Modelled from the spec: the constant `CLOCAL` of `<termios.h>`, which the repository uses and
does not define; the Linux value. -/
def CLOCAL : Nat := 0o4000
/-- Modelled from the spec: the constant `CRTSCTS` of `<termios.h>`, which the repository uses and
does not define; the Linux value. -/
def CRTSCTS : Nat := 0o20000000000

/-- Modelled from the spec: the constant `B9600` of `<termios.h>`, which the repository uses and
does not define; the Linux value. -/
def B9600 : Nat := 0o15
/-- Modelled from the spec: the constant `B19200` of `<termios.h>`, which the repository uses and
does not define; the Linux value. -/
def B19200 : Nat := 0o16
/-- Modelled from the spec: the constant `B38400` of `<termios.h>`, which the repository uses and
does not define; the Linux value. -/
def B38400 : Nat := 0o17
/-- Modelled from the spec: the constant `B57600` of `<termios.h>`, which the repository uses and
does not define; the Linux value. -/
def B57600 : Nat := 0o10001
/-- Modelled from the spec: the constant `B115200` of `<termios.h>`, which the repository uses and
does not define; the Linux value. -/
def B115200 : Nat := 0o10002
/-- Modelled from the spec: the constant `B230400` of `<termios.h>`, which the repository uses and
does not define; the Linux value. -/
def B230400 : Nat := 0o10003
/-- Modelled from the spec: the constant `B460800` of `<termios.h>`, which the repository uses and
does not define; the Linux value. -/
def B460800 : Nat := 0o10004
/-- Modelled from the spec: the constant `B921600` of `<termios.h>`, which the repository uses and
does not define; the Linux value. -/
def B921600 : Nat := 0o10007
/-- Modelled from the spec: the constant `B4000000` of `<termios.h>`, which the repository uses and
does not define; the Linux value. -/
def B4000000 : Nat := 0o10017

/-! ## The enumerations of `SerialPort.h` -/

inductive BaudRate where
  | BAUD_9600 | BAUD_19200 | BAUD_38400 | BAUD_57600
  | BAUD_115200 | BAUD_230400 | BAUD_460800 | BAUD_921600
  deriving DecidableEq

inductive DataBits where
  | BITS_5 | BITS_6 | BITS_7 | BITS_8
  deriving DecidableEq

inductive Parity where
  | NONE | ODD | EVEN
  deriving DecidableEq

inductive StopBits where
  | ONE | TWO
  deriving DecidableEq

inductive FlowControl where
  | NONE | HARDWARE | SOFTWARE
  deriving DecidableEq

/-- The enumerator values of `enum class BaudRate : speed_t`. -/
def BaudRate.toSpeed : BaudRate → Nat
  | .BAUD_9600 => B9600
  | .BAUD_19200 => B19200
  | .BAUD_38400 => B38400
  | .BAUD_57600 => B57600
  | .BAUD_115200 => B115200
  | .BAUD_230400 => B230400
  | .BAUD_460800 => B460800
  | .BAUD_921600 => B921600

/-- The enumerator values of `enum class DataBits : tcflag_t`. -/
def DataBits.toFlag : DataBits → Nat
  | .BITS_5 => CS5
  | .BITS_6 => CS6
  | .BITS_7 => CS7
  | .BITS_8 => CS8

/-! ## The terminal attribute block -/

/-- Modelled from the spec: the `struct termios` of `<termios.h>`, which the
repository uses and does not define: four mode words (control, input, output,
local), the control characters (indexed by `VTIME`, `VMIN`, ...) and the two
speeds. -/
structure Termios where
  c_iflag : Nat
  c_oflag : Nat
  c_cflag : Nat
  c_lflag : Nat
  c_cc : Nat → Nat
  c_ispeed : Nat
  c_ospeed : Nat

/-- The assignment `options.c_cc[i] = v`. -/
def Termios.setCc (t : Termios) (i v : Nat) : Termios :=
  { t with c_cc := fun j => if j = i then v else t.c_cc j }

/-- Modelled from the spec: `cfsetospeed` of the C library, which the
repository calls and does not define ("install the chosen baud as both input
and output speed"; the baud values are the kernel's speed constants).  It
rejects a value that is not a speed constant and otherwise stores the constant
in the speed field of the control word. -/
def cfsetospeed (t : Termios) (speed : Nat) : Except String Termios :=
  if speed &&& compl32 CBAUD ≠ 0 ∧ (speed < B57600 ∨ speed > B4000000) then
    .error "Invalid argument"
  else
    .ok { t with c_ospeed := speed
                 c_cflag := (t.c_cflag &&& compl32 (CBAUD ||| CBAUDEX)) ||| speed }

/-- Modelled from the spec: `cfsetispeed` of the C library, which the
repository calls and does not define ("install the chosen baud as both input
and output speed").  Like `cfsetospeed`, with the input-speed-zero marker of
the input word kept in step. -/
def cfsetispeed (t : Termios) (speed : Nat) : Except String Termios :=
  if speed &&& compl32 CBAUD ≠ 0 ∧ (speed < B57600 ∨ speed > B4000000) then
    .error "Invalid argument"
  else if speed = 0 then
    .ok { t with c_ispeed := speed, c_iflag := t.c_iflag ||| IBAUD0 }
  else
    .ok { t with c_ispeed := speed
                 c_iflag := t.c_iflag &&& compl32 IBAUD0
                 c_cflag := (t.c_cflag &&& compl32 (CBAUD ||| CBAUDEX)) ||| speed }

/-! ## The operating system below the class -/

/-- What the system `read` gives back. -/
inductive ReadResult where
  /-- A count of bytes (possibly zero) stored into the buffer. -/
  | data (bytes : List Byte)
  /-- Minus one with `errno` equal to `EAGAIN` or `EWOULDBLOCK`. -/
  | again
  /-- Minus one with any other `errno`; the text is `strerror(errno)`. -/
  | fail (msg : String)

/-- An exception of the C++ library that leaves a member function instead of
a return value: the two that `std::string::reserve` throws. -/
inductive Thrown where
  /-- The exception `std::length_error`: more than `max_size()` characters were asked for. -/
  | length_error
  /-- The exception `std::bad_alloc`: the allocation failed. -/
  | bad_alloc
  deriving DecidableEq

/-- The system calls the class issues, each as a transition of the kernel
state `σ`.  A failing call (`-1`, or non-zero for the `tc*` family) carries the
text of `strerror(errno)`.  The last field is the one request of a size chosen
by the caller that the class makes of the C++ library, `std::string::reserve`:
it gives the exception thrown, if any. -/
structure OS (σ : Type) where
  sys_open : String → Nat → σ → Except String Nat × σ
  sys_close : Int → σ → σ
  isatty : Int → σ → Bool × σ
  tcgetattr : Int → σ → Except String Termios × σ
  tcsetattr : Int → Nat → Termios → σ → Except String Unit × σ
  fcntl_getfl : Int → σ → Except String Nat × σ
  fcntl_setfl : Int → Nat → σ → Except String Unit × σ
  sys_write : Int → List Byte → σ → Except String Nat × σ
  sys_read : Int → Nat → σ → ReadResult × σ
  tcdrain : Int → σ → Except String Unit × σ
  tcflush : Int → Nat → σ → Except String Unit × σ
  fionread : Int → σ → Except String Int × σ
  usleep : Nat → σ → σ
  string_reserve : Nat → σ → Option Thrown × σ

/-- One system call as the class issued it. -/
inductive Event where
  | sysOpen (path : String) (flags : Nat) (ret : Int)
  | sysClose (fd : Int)
  | isatty (fd : Int)
  | tcgetattr (fd : Int)
  | tcsetattr (fd : Int) (actions : Nat) (options : Termios)
  | fcntlGetfl (fd : Int)
  | fcntlSetfl (fd : Int) (flags : Nat)
  | sysWrite (fd : Int) (data : List Byte)
  | sysRead (fd : Int) (size : Nat)
  | tcdrain (fd : Int)
  | tcflush (fd : Int) (queue : Nat)
  | fionread (fd : Int)
  | usleep (usec : Nat)

/-- The outside world: the kernel state and the calls issued so far, oldest first. -/
structure World (σ : Type) where
  kernel : σ
  log : List Event

/-- The effect of one call on the descriptors held: a successful `::open`
adds the descriptor it returned, `::close` removes its argument. -/
def heldStep (acc : List Int) : Event → List Int
  | .sysOpen _ _ ret => if ret = -1 then acc else ret :: acc
  | .sysClose fd => acc.erase fd
  | _ => acc

/-- The descriptors acquired and not yet released, according to a log. -/
def held (log : List Event) : List Int :=
  log.foldl heldStep []

/-! ## The class -/

/-- The data members of `class SerialPort`. -/
structure SerialPort where
  fd_ : Int
  device_ : String
  lastError_ : String
  deriving DecidableEq

/-- What a member function leaves behind: its return value, the object and the world. -/
structure Out (α σ : Type) where
  ret : α
  port : SerialPort
  world : World σ

namespace SerialPort

/-- The constructor `SerialPort::SerialPort() : fd_(-1)`. -/
def new : SerialPort := { fd_ := -1, device_ := "", lastError_ := "" }

/-- The member `SerialPort::isOpen`. -/
def isOpen (p : SerialPort) : Bool := p.fd_ != -1

/-- The member `SerialPort::setError`. -/
def setError (p : SerialPort) (error : String) : SerialPort :=
  { p with lastError_ := error }

/-- The member `SerialPort::getLastError`. -/
def getLastError {σ : Type} (p : SerialPort) (w : World σ) : Out String σ :=
  ⟨p.lastError_, p, w⟩

end SerialPort

/-! ## System calls, logged -/

section Calls

variable {σ : Type} (os : OS σ)

/-- The value `::open` hands back: the descriptor, or `-1`. -/
def openRet : Except String Nat → Int
  | .ok fd => (fd : Int)
  | .error _ => -1

def callOpen (path : String) (flags : Nat) (w : World σ) : Except String Nat × World σ :=
  ((os.sys_open path flags w.kernel).1,
   ⟨(os.sys_open path flags w.kernel).2,
    w.log ++ [Event.sysOpen path flags (openRet (os.sys_open path flags w.kernel).1)]⟩)

def callClose (fd : Int) (w : World σ) : World σ :=
  ⟨os.sys_close fd w.kernel, w.log ++ [Event.sysClose fd]⟩

def callIsatty (fd : Int) (w : World σ) : Bool × World σ :=
  ((os.isatty fd w.kernel).1, ⟨(os.isatty fd w.kernel).2, w.log ++ [Event.isatty fd]⟩)

def callTcgetattr (fd : Int) (w : World σ) : Except String Termios × World σ :=
  ((os.tcgetattr fd w.kernel).1, ⟨(os.tcgetattr fd w.kernel).2, w.log ++ [Event.tcgetattr fd]⟩)

def callTcsetattr (fd : Int) (actions : Nat) (options : Termios) (w : World σ) :
    Except String Unit × World σ :=
  ((os.tcsetattr fd actions options w.kernel).1,
   ⟨(os.tcsetattr fd actions options w.kernel).2,
    w.log ++ [Event.tcsetattr fd actions options]⟩)

def callFcntlGetfl (fd : Int) (w : World σ) : Except String Nat × World σ :=
  ((os.fcntl_getfl fd w.kernel).1,
   ⟨(os.fcntl_getfl fd w.kernel).2, w.log ++ [Event.fcntlGetfl fd]⟩)

def callFcntlSetfl (fd : Int) (flags : Nat) (w : World σ) : Except String Unit × World σ :=
  ((os.fcntl_setfl fd flags w.kernel).1,
   ⟨(os.fcntl_setfl fd flags w.kernel).2, w.log ++ [Event.fcntlSetfl fd flags]⟩)

def callWrite (fd : Int) (data : List Byte) (w : World σ) : Except String Nat × World σ :=
  ((os.sys_write fd data w.kernel).1,
   ⟨(os.sys_write fd data w.kernel).2, w.log ++ [Event.sysWrite fd data]⟩)

def callRead (fd : Int) (size : Nat) (w : World σ) : ReadResult × World σ :=
  ((os.sys_read fd size w.kernel).1,
   ⟨(os.sys_read fd size w.kernel).2, w.log ++ [Event.sysRead fd size]⟩)

def callTcdrain (fd : Int) (w : World σ) : Except String Unit × World σ :=
  ((os.tcdrain fd w.kernel).1, ⟨(os.tcdrain fd w.kernel).2, w.log ++ [Event.tcdrain fd]⟩)

def callTcflush (fd : Int) (queue : Nat) (w : World σ) : Except String Unit × World σ :=
  ((os.tcflush fd queue w.kernel).1,
   ⟨(os.tcflush fd queue w.kernel).2, w.log ++ [Event.tcflush fd queue]⟩)

def callFionread (fd : Int) (w : World σ) : Except String Int × World σ :=
  ((os.fionread fd w.kernel).1, ⟨(os.fionread fd w.kernel).2, w.log ++ [Event.fionread fd]⟩)

def callUsleep (usec : Nat) (w : World σ) : World σ :=
  ⟨os.usleep usec w.kernel, w.log ++ [Event.usleep usec]⟩

/-- The call `result.reserve(n)`: no system call of the class, so nothing is logged. -/
def stringReserve (n : Nat) (w : World σ) : Option Thrown × World σ :=
  ((os.string_reserve n w.kernel).1, ⟨(os.string_reserve n w.kernel).2, w.log⟩)

end Calls

/-! ## The member functions of `SerialPort.cpp` -/

namespace SerialPort

variable {σ : Type}

/-- The path of `SerialPort::open` that gives up after the descriptor was
acquired: `::close(fd_); fd_ = -1; setError(...); return false;`.  The message
is built from the error text of the call that failed; the source reads `errno`
after `::close`, so a `::close` that fails as well would put its own text
there. -/
def openAbort (os : OS σ) (p : SerialPort) (error : String) (w : World σ) : Out Bool σ :=
  ⟨false, ({ p with fd_ := -1 }).setError error, callClose os p.fd_ w⟩

/-- The member `SerialPort::open`.  The path is handed to `::open` as it is;
`c_str()` would end it at a NUL character inside it. -/
def open_ (os : OS σ) (device : String) (p : SerialPort) (w : World σ) : Out Bool σ :=
  if p.isOpen then
    ⟨false, p.setError "Serial port is already open", w⟩
  else
    let p := { p with device_ := device }
    match callOpen os device (O_RDWR ||| O_NOCTTY ||| O_NONBLOCK) w with
    | (.error e, w) =>
      ⟨false,
       ({ p with fd_ := -1 }).setError ("Unable to open serial device: " ++ device ++ " - " ++ e),
       w⟩
    | (.ok fd, w) =>
      let p := { p with fd_ := (fd : Int) }
      match callIsatty os p.fd_ w with
      | (false, w) => openAbort os p ("Device is not a terminal device: " ++ device) w
      | (true, w) =>
        match callTcgetattr os p.fd_ w with
        | (.error e, w) => openAbort os p ("Unable to get serial port attributes: " ++ e) w
        | (.ok _, w) =>
          match callFcntlGetfl os p.fd_ w with
          | (.error e, w) => openAbort os p ("Unable to get file status flags: " ++ e) w
          | (.ok flags, w) =>
            match callFcntlSetfl os p.fd_ (flags &&& compl32 O_NONBLOCK) w with
            | (.error e, w) => openAbort os p ("Unable to set blocking mode: " ++ e) w
            | (.ok _, w) => ⟨true, p, w⟩

/-- The member `SerialPort::close`. -/
def close (os : OS σ) (p : SerialPort) (w : World σ) : Out Unit σ :=
  if p.fd_ ≠ -1 then
    ⟨(), { fd_ := -1, device_ := "", lastError_ := "" }, callClose os p.fd_ w⟩
  else
    ⟨(), { p with device_ := "", lastError_ := "" }, w⟩

/-- The member `SerialPort::setTerminalAttributes`. -/
def setTerminalAttributes (os : OS σ) (options : Termios) (p : SerialPort) (w : World σ) :
    Out Bool σ :=
  match callTcsetattr os p.fd_ TCSANOW options w with
  | (.error e, w) => ⟨false, p.setError ("Unable to set serial port attributes: " ++ e), w⟩
  | (.ok _, w) => ⟨true, p, callUsleep os 100000 w⟩

/-- The attribute block `SerialPort::configure` builds from the block that
`tcgetattr` gave it, once both speeds are in: the statements from "Set data
bits" down to the seeding of `VTIME` and `VMIN`. -/
def configureModes (options : Termios) (dataBits : DataBits) (parity : Parity)
    (stopBits : StopBits) (flowControl : FlowControl) : Termios :=
  let options := { options with c_cflag := options.c_cflag ||| dataBits.toFlag }
  let options :=
    if parity = Parity.EVEN then { options with c_cflag := options.c_cflag ||| PARENB }
    else if parity = Parity.ODD then
      { options with c_cflag := options.c_cflag ||| (PARENB ||| PARODD) }
    else options
  let options :=
    if stopBits = StopBits.TWO then { options with c_cflag := options.c_cflag ||| CSTOPB }
    else options
  let options :=
    if flowControl = FlowControl.HARDWARE then
      { options with c_cflag := options.c_cflag ||| CRTSCTS }
    else if flowControl = FlowControl.SOFTWARE then
      { options with c_iflag := options.c_iflag ||| (IXON ||| IXOFF) }
    else options
  let options := { options with c_cflag := options.c_cflag ||| (CLOCAL ||| CREAD) }
  let options :=
    { options with c_lflag := options.c_lflag &&& compl32 (ICANON ||| ECHO ||| ECHOE ||| ISIG) }
  let options := { options with c_oflag := options.c_oflag &&& compl32 OPOST }
  let options :=
    { options with
      c_iflag := options.c_iflag &&&
        compl32 (IXON ||| IXOFF ||| IXANY ||| ICRNL ||| INLCR ||| IGNCR) }
  let options := options.setCc VTIME (toCcT 10)
  options.setCc VMIN (toCcT 0)

/-- The member `SerialPort::configure`. -/
def configure (os : OS σ) (baudRate : BaudRate) (dataBits : DataBits) (parity : Parity)
    (stopBits : StopBits) (flowControl : FlowControl) (p : SerialPort) (w : World σ) :
    Out Bool σ :=
  if !p.isOpen then
    ⟨false, p.setError "Serial port is not open", w⟩
  else
    match callTcgetattr os p.fd_ w with
    | (.error e, w) => ⟨false, p.setError ("Unable to get serial port attributes: " ++ e), w⟩
    | (.ok options, w) =>
      let options := { options with c_cflag := 0, c_iflag := 0, c_oflag := 0, c_lflag := 0 }
      match cfsetispeed options baudRate.toSpeed with
      | .error e => ⟨false, p.setError ("Unable to set baud rate: " ++ e), w⟩
      | .ok options =>
        match cfsetospeed options baudRate.toSpeed with
        | .error e => ⟨false, p.setError ("Unable to set baud rate: " ++ e), w⟩
        | .ok options =>
          setTerminalAttributes os
            (configureModes options dataBits parity stopBits flowControl) p w

/-- The member `SerialPort::write(const void*, size_t)`; the buffer is the
list of its `size` bytes. -/
def write (os : OS σ) (data : List Byte) (p : SerialPort) (w : World σ) : Out Int σ :=
  if !p.isOpen then
    ⟨-1, p.setError "Serial port is not open", w⟩
  else
    match callWrite os p.fd_ data w with
    | (.error e, w) => ⟨-1, p.setError ("Failed to write data: " ++ e), w⟩
    | (.ok result, w) => ⟨toInt32 result, p, w⟩

/-- The member `SerialPort::write(const std::string&)`. -/
def write_string (os : OS σ) (data : List Byte) (p : SerialPort) (w : World σ) : Out Int σ :=
  write os data p w

/-- The member `SerialPort::drain`. -/
def drain (os : OS σ) (p : SerialPort) (w : World σ) : Out Bool σ :=
  if !p.isOpen then
    ⟨false, p.setError "Serial port is not open", w⟩
  else
    match callTcdrain os p.fd_ w with
    | (.error e, w) => ⟨false, p.setError ("Failed to drain output buffer: " ++ e), w⟩
    | (.ok _, w) => ⟨true, p, w⟩

/-- The member `SerialPort::write(const void*, size_t, bool)`. -/
def write_wait (os : OS σ) (data : List Byte) (waitForCompletion : Bool) (p : SerialPort)
    (w : World σ) : Out Int σ :=
  let r := write os data p w
  if r.ret > 0 ∧ waitForCompletion = true then
    let d := drain os r.port r.world
    if !d.ret then
      ⟨r.ret,
       d.port.setError
         ("Data written but failed to wait for transmission completion: " ++ d.port.lastError_),
       d.world⟩
    else ⟨r.ret, d.port, d.world⟩
  else r

/-- The member `SerialPort::write(const std::string&, bool)`. -/
def write_string_wait (os : OS σ) (data : List Byte) (waitForCompletion : Bool)
    (p : SerialPort) (w : World σ) : Out Int σ :=
  write_wait os data waitForCompletion p w

/-- The member `SerialPort::setReadTimeout`. -/
def setReadTimeout (os : OS σ) (timeoutMs : Int) (p : SerialPort) (w : World σ) : Out Bool σ :=
  if !p.isOpen then
    ⟨false, p.setError "Serial port is not open", w⟩
  else
    match callTcgetattr os p.fd_ w with
    | (.error e, w) => ⟨false, p.setError ("Unable to get serial port attributes: " ++ e), w⟩
    | (.ok options, w) =>
      let options := options.setCc VTIME (toCcT (timeoutMs.tdiv 100))
      let options :=
        if options.c_cc VTIME = 0 ∧ timeoutMs > 0 then options.setCc VTIME (toCcT 1)
        else options
      match callTcsetattr os p.fd_ TCSANOW options w with
      | (.error e, w) => ⟨false, p.setError ("Unable to set read timeout: " ++ e), w⟩
      | (.ok _, w) => ⟨true, p, w⟩

/-- The member `SerialPort::read(void*, size_t, int)`.  The second component
of the return value is what the system read stored into the caller's buffer. -/
def read (os : OS σ) (size : Nat) (timeoutMs : Int) (p : SerialPort) (w : World σ) :
    Out (Int × List Byte) σ :=
  if !p.isOpen then
    ⟨(-1, []), p.setError "Serial port is not open", w⟩
  else
    let t := setReadTimeout os timeoutMs p w
    if !t.ret then
      ⟨(-1, []), t.port, t.world⟩
    else
      match callRead os t.port.fd_ size t.world with
      | (.again, w) => ⟨(0, []), t.port, w⟩
      | (.fail e, w) => ⟨(-1, []), t.port.setError ("Failed to read data: " ++ e), w⟩
      | (.data bytes, w) => ⟨(toInt32 bytes.length, bytes), t.port, w⟩

/-- One call of the raw `read` made by the string form: the length and the
timeout it asked for, the value it returned and the bytes it delivered. -/
structure RawRead where
  size : Nat
  timeoutMs : Int
  ret : Int
  data : List Byte

/-- The `while (totalRead < maxBytes)` loop of `SerialPort::read(size_t, int)`.
Next to the string built so far it keeps the record of the raw reads made,
which the source does not keep and nothing here depends on. -/
def readLoop (os : OS σ) (maxBytes : Nat) (timeoutMs : Int) (result : List Byte)
    (totalRead : Nat) (calls : List RawRead) (p : SerialPort) (w : World σ) :
    Out (List Byte × List RawRead) σ :=
  if totalRead < maxBytes then
    let toRead := min 1024 (maxBytes - totalRead)
    let r := read os toRead timeoutMs p w
    let bytesRead := r.ret.1
    let calls := calls ++ [⟨toRead, timeoutMs, bytesRead, r.ret.2.take bytesRead.toNat⟩]
    if bytesRead < 0 then
      ⟨(result, calls), r.port, r.world⟩
    else if bytesRead = 0 then
      ⟨(result, calls), r.port, r.world⟩
    else
      readLoop os maxBytes timeoutMs (result ++ r.ret.2.take bytesRead.toNat)
        (totalRead + bytesRead.toNat) calls r.port r.world
  else
    ⟨(result, calls), p, w⟩
termination_by maxBytes - totalRead
decreasing_by
  simp_wf
  rename_i hlt hneg hzero
  have hpos : 0 < (read os (min 1024 (maxBytes - totalRead)) timeoutMs p w).ret.1 := by
    rcases lt_trichotomy 0 (read os (min 1024 (maxBytes - totalRead)) timeoutMs p w).ret.1
      with h | h | h
    · exact h
    · exact absurd h.symm hzero
    · exact absurd h hneg
  omega

/-- The member `SerialPort::read(size_t, int)` together with the record of
the raw reads it made.  The return value is the string returned, or the
exception that `result.reserve(maxBytes)` threw before the loop. -/
def read_string_traced (os : OS σ) (maxBytes : Nat) (timeoutMs : Int) (p : SerialPort)
    (w : World σ) : Out (Except Thrown (List Byte × List RawRead)) σ :=
  if !p.isOpen then
    ⟨.ok ([], []), p.setError "Serial port is not open", w⟩
  else
    match stringReserve os maxBytes w with
    | (some ex, w) => ⟨.error ex, p, w⟩
    | (none, w) =>
      ⟨.ok (readLoop os maxBytes timeoutMs [] 0 [] p w).ret,
       (readLoop os maxBytes timeoutMs [] 0 [] p w).port,
       (readLoop os maxBytes timeoutMs [] 0 [] p w).world⟩

/-- The member `SerialPort::read(size_t, int)`: the string returned, or the
exception thrown. -/
def read_string (os : OS σ) (maxBytes : Nat) (timeoutMs : Int) (p : SerialPort)
    (w : World σ) : Out (Except Thrown (List Byte)) σ :=
  ⟨(read_string_traced os maxBytes timeoutMs p w).ret.map Prod.fst,
   (read_string_traced os maxBytes timeoutMs p w).port,
   (read_string_traced os maxBytes timeoutMs p w).world⟩

/-- The member `SerialPort::flush`. -/
def flush (os : OS σ) (p : SerialPort) (w : World σ) : Out Bool σ :=
  if !p.isOpen then
    ⟨false, p.setError "Serial port is not open", w⟩
  else
    match callTcflush os p.fd_ TCIOFLUSH w with
    | (.error e, w) => ⟨false, p.setError ("Failed to flush buffers: " ++ e), w⟩
    | (.ok _, w) => ⟨true, p, w⟩

/-- The member `SerialPort::flushInput`. -/
def flushInput (os : OS σ) (p : SerialPort) (w : World σ) : Out Bool σ :=
  if !p.isOpen then
    ⟨false, p.setError "Serial port is not open", w⟩
  else
    match callTcflush os p.fd_ TCIFLUSH w with
    | (.error e, w) => ⟨false, p.setError ("Failed to flush input buffer: " ++ e), w⟩
    | (.ok _, w) => ⟨true, p, w⟩

/-- The member `SerialPort::flushOutput`. -/
def flushOutput (os : OS σ) (p : SerialPort) (w : World σ) : Out Bool σ :=
  if !p.isOpen then
    ⟨false, p.setError "Serial port is not open", w⟩
  else
    match callTcflush os p.fd_ TCOFLUSH w with
    | (.error e, w) => ⟨false, p.setError ("Failed to flush output buffer: " ++ e), w⟩
    | (.ok _, w) => ⟨true, p, w⟩

/-- The member `SerialPort::available`. -/
def available (os : OS σ) (p : SerialPort) (w : World σ) : Out Int σ :=
  if !p.isOpen then
    ⟨-1, p, w⟩
  else
    match callFionread os p.fd_ w with
    | (.error _, w) => ⟨-1, p, w⟩
    | (.ok bytes, w) => ⟨bytes, p, w⟩

end SerialPort

/-! ## Two concrete operating systems -/

/-- The fixed outcomes of a stateless operating system: every call of a kind
gives the same answer. -/
structure Stub where
  openRes : Except String Nat
  tty : Bool
  getattr : Except String Termios
  setattr : Except String Unit
  getfl : Except String Nat
  setfl : Except String Unit
  writeRes : List Byte → Except String Nat
  readRes : Nat → ReadResult
  drainRes : Except String Unit
  flushRes : Except String Unit
  fionreadRes : Except String Int
  reserveRes : Nat → Option Thrown

/-- The stateless operating system with the outcomes of `s`. -/
def stubOS (s : Stub) : OS Unit where
  sys_open := fun _ _ k => (s.openRes, k)
  sys_close := fun _ k => k
  isatty := fun _ k => (s.tty, k)
  tcgetattr := fun _ k => (s.getattr, k)
  tcsetattr := fun _ _ _ k => (s.setattr, k)
  fcntl_getfl := fun _ k => (s.getfl, k)
  fcntl_setfl := fun _ _ k => (s.setfl, k)
  sys_write := fun _ data k => (s.writeRes data, k)
  sys_read := fun _ size k => (s.readRes size, k)
  tcdrain := fun _ k => (s.drainRes, k)
  tcflush := fun _ _ k => (s.flushRes, k)
  fionread := fun _ k => (s.fionreadRes, k)
  usleep := fun _ k => k
  string_reserve := fun n k => (s.reserveRes n, k)

/-- Modelled from the spec: the value of `std::string::max_size()`, which the
repository relies on through `reserve` and does not define; the value of the
GNU C++ library on a 64-bit target, `2 ^ 62 - 1`. -/
def STRING_MAX_SIZE : Nat := 4611686018427387903

/-- The call `reserve(n)` with `memory` bytes left to allocate: it throws
`std::length_error` for a request above `max_size()`, `std::bad_alloc` for one
above what is left, and nothing otherwise. -/
def reserveWith (memory n : Nat) : Option Thrown :=
  if STRING_MAX_SIZE < n then some Thrown.length_error
  else if memory < n then some Thrown.bad_alloc
  else none

/-- A `reserve` that never runs out of memory: it throws only for a request
above `max_size()`. -/
def reserveWithinMaxSize (n : Nat) : Option Thrown :=
  reserveWith STRING_MAX_SIZE n

/-- An attribute block with every word and every control character zero. -/
def zeroTermios : Termios := ⟨0, 0, 0, 0, fun _ => 0, 0, 0⟩

/-- Every call succeeds: descriptor 3 is a terminal, writes are accepted whole,
reads find nothing, and memory never runs out. -/
def okStub : Stub where
  openRes := .ok 3
  tty := true
  getattr := .ok zeroTermios
  setattr := .ok ()
  getfl := .ok (O_RDWR ||| O_NONBLOCK)
  setfl := .ok ()
  writeRes := fun data => .ok data.length
  readRes := fun _ => .data []
  drainRes := .ok ()
  flushRes := .ok ()
  fionreadRes := .ok 0
  reserveRes := reserveWithinMaxSize

/-- As `okStub`, on a device that is not a terminal. -/
def notTtyStub : Stub := { okStub with tty := false }

/-- As `okStub`, with a drain that fails. -/
def noDrainStub : Stub := { okStub with drainRes := .error "Input/output error" }

/-- The world before any call, over the stateless operating system. -/
def w0 : World Unit := ⟨(), []⟩

/-- A handle that is open on descriptor 3. -/
def port3 : SerialPort := ⟨3, "/dev/ttyUSB0", ""⟩

/-- A handle that is open on descriptor 4. -/
def port4 : SerialPort := ⟨4, "/dev/ttyUSB1", ""⟩

/-- The state below a loopback line: the bytes written on one end and not yet
read on the other, the attribute block, the file-status flags, and the number
of bytes the allocator can still hand out. -/
structure Loopback where
  queue : List Byte
  attrs : Termios
  flags : Nat
  memory : Nat

/-- How many bytes a read of `size` bytes takes from a queue of `queued`
bytes: none from an empty queue, otherwise at least one and at most
`min size queued`, the choice inside that range being left to `pick`. -/
def loopChunk (pick : Nat → Nat → Nat) (queued size : Nat) : Nat :=
  if queued = 0 ∨ size = 0 then 0 else max 1 (min (pick queued size) (min size queued))

/-- The most bytes one `write` call of Linux transfers, `0x7ffff000`. -/
def MAX_RW_COUNT : Nat := 2147479552

/-- The capacity of a loopback line whose queue has room for `cap` bytes: the
most bytes one write to the idle line accepts. -/
def loopCapacity (cap : Nat) : Nat := min cap MAX_RW_COUNT

/-- The loopback device of the round-trip property: a first-in first-out
queue with room for `cap` bytes that accepts every written byte it has room
for, up to what one `write` call transfers, a drain that succeeds, and a read
that hands out a leading part of the queue (`loopChunk`).  Every other call
succeeds, and `reserve` throws above `max_size()` and above the memory left. -/
def loopbackOS (cap : Nat) (pick : Nat → Nat → Nat) : OS Loopback where
  sys_open := fun _ _ k => (.ok 3, k)
  sys_close := fun _ k => k
  isatty := fun _ k => (true, k)
  tcgetattr := fun _ k => (.ok k.attrs, k)
  tcsetattr := fun _ _ t k => (.ok (), { k with attrs := t })
  fcntl_getfl := fun _ k => (.ok k.flags, k)
  fcntl_setfl := fun _ fl k => (.ok (), { k with flags := fl })
  sys_write := fun _ data k =>
    (.ok (min (min data.length MAX_RW_COUNT) (cap - k.queue.length)),
     { k with
       queue := k.queue ++
         data.take (min (min data.length MAX_RW_COUNT) (cap - k.queue.length)) })
  sys_read := fun _ size k =>
    (.data (k.queue.take (loopChunk pick k.queue.length size)),
     { k with queue := k.queue.drop (loopChunk pick k.queue.length size) })
  tcdrain := fun _ k => (.ok (), k)
  tcflush := fun _ q k => (.ok (), if q = TCOFLUSH then k else { k with queue := [] })
  fionread := fun _ k => (.ok (k.queue.length : Int), k)
  usleep := fun _ k => k
  string_reserve := fun n k => (reserveWith k.memory n, k)

/-- An idle loopback line: nothing queued, 1 GiB of memory left. -/
def idleLine : World Loopback := ⟨⟨[], zeroTermios, O_RDWR, 1073741824⟩, []⟩

/-- A loopback line on which the four bytes of "ping" are queued, with 1 GiB
of memory left. -/
def pingLine : World Loopback :=
  ⟨⟨[112, 105, 110, 103], zeroTermios, O_RDWR, 1073741824⟩, []⟩

/-! ## Reading the log -/

/-- The inter-byte timer (`c_cc[VTIME]`) of every attribute block installed, oldest first. -/
def installedVtime : List Event → List Nat
  | [] => []
  | .tcsetattr _ _ o :: es => o.c_cc VTIME :: installedVtime es
  | _ :: es => installedVtime es

/-- The input word of every attribute block installed, oldest first. -/
def installedIflag : List Event → List Nat
  | [] => []
  | .tcsetattr _ _ o :: es => o.c_iflag :: installedIflag es
  | _ :: es => installedIflag es

/-- The control word of every attribute block installed, oldest first. -/
def installedCflag : List Event → List Nat
  | [] => []
  | .tcsetattr _ _ o :: es => o.c_cflag :: installedCflag es
  | _ :: es => installedCflag es

/-- The descriptors on which a drain was requested, oldest first. -/
def drainsRequested : List Event → List Int
  | [] => []
  | .tcdrain fd :: es => fd :: drainsRequested es
  | _ :: es => drainsRequested es

/-! ## The handle as a state machine -/

/-- One call of a public member function, with its arguments. -/
inductive Op where
  | open_ (device : String)
  | close
  | configure (baudRate : BaudRate) (dataBits : DataBits) (parity : Parity)
      (stopBits : StopBits) (flowControl : FlowControl)
  | write (data : List Byte)
  | write_string (data : List Byte)
  | write_wait (data : List Byte) (waitForCompletion : Bool)
  | write_string_wait (data : List Byte) (waitForCompletion : Bool)
  | read (size : Nat) (timeoutMs : Int)
  | read_string (maxBytes : Nat) (timeoutMs : Int)
  | drain
  | flush
  | flushInput
  | flushOutput
  | available
  | getLastError

/-- The handle together with the world around it. -/
structure State (σ : Type) where
  port : SerialPort
  world : World σ

/-- The state a call leaves behind, its return value dropped. -/
def Out.state {α σ : Type} (r : Out α σ) : State σ := ⟨r.port, r.world⟩

/-- The effect of one call on the state. -/
def step {σ : Type} (os : OS σ) (s : State σ) : Op → State σ
  | .open_ device => (SerialPort.open_ os device s.port s.world).state
  | .close => (SerialPort.close os s.port s.world).state
  | .configure b db par sb fc => (SerialPort.configure os b db par sb fc s.port s.world).state
  | .write data => (SerialPort.write os data s.port s.world).state
  | .write_string data => (SerialPort.write_string os data s.port s.world).state
  | .write_wait data wait => (SerialPort.write_wait os data wait s.port s.world).state
  | .write_string_wait data wait =>
    (SerialPort.write_string_wait os data wait s.port s.world).state
  | .read size t => (SerialPort.read os size t s.port s.world).state
  | .read_string maxBytes t => (SerialPort.read_string os maxBytes t s.port s.world).state
  | .drain => (SerialPort.drain os s.port s.world).state
  | .flush => (SerialPort.flush os s.port s.world).state
  | .flushInput => (SerialPort.flushInput os s.port s.world).state
  | .flushOutput => (SerialPort.flushOutput os s.port s.world).state
  | .available => (SerialPort.available os s.port s.world).state
  | .getLastError => (SerialPort.getLastError s.port s.world).state

/-- The effect of a sequence of calls, first to last. -/
def run {σ : Type} (os : OS σ) (ops : List Op) (s : State σ) : State σ :=
  ops.foldl (step os) s

/-- A freshly constructed handle in a process that has issued no call yet,
over the kernel state `k`. -/
def fresh {σ : Type} (k : σ) : State σ := ⟨SerialPort.new, ⟨k, []⟩⟩

/-- Whether the call is an `open`. -/
def Op.isOpenCall : Op → Bool
  | .open_ _ => true
  | _ => false

/-- Whether the call is one that never writes a message into last-error:
`close`, `available` and `getLastError`. -/
def Op.isSilent : Op → Bool
  | .close => true
  | .available => true
  | .getLastError => true
  | _ => false

/-! ## Definitions that follow the wording of the specification -/

/-- The frame of an operation that is neither `close` nor a first `open`: the
descriptor member, hence the open/closed state, the recorded device path and
the descriptors held by the process are after the operation what they were
before it. -/
def Frame {σ : Type} (p : SerialPort) (w : World σ) (p1 : SerialPort) (w1 : World σ) : Prop :=
  p1.fd_ = p.fd_ ∧ p1.isOpen = p.isOpen ∧ p1.device_ = p.device_ ∧ held w1.log = held w.log

/-- The raw reads the specification lets the string read make, and the string
they amount to, for a limit of `maxBytes` and a timeout of `timeoutMs` once
`acc` bytes are accumulated.  No read is made when `maxBytes` bytes are
accumulated (`full`).  Otherwise one read is made, asking for
`min 1024 (maxBytes - acc)` bytes with the same timeout; an outcome of 0 or -1
ends the run (`stop`), and a count between 1 and the length asked for
contributes its chunk, after which the run goes on (`more`). -/
inductive ReadRun (maxBytes : Nat) (timeoutMs : Int) :
    Nat → List SerialPort.RawRead → List Byte → Prop where
  | full {acc : Nat} : maxBytes ≤ acc → ReadRun maxBytes timeoutMs acc [] []
  | stop {acc : Nat} (c : SerialPort.RawRead) : acc < maxBytes →
      c.size = min 1024 (maxBytes - acc) → c.timeoutMs = timeoutMs →
      (c.ret = 0 ∨ c.ret = -1) → ReadRun maxBytes timeoutMs acc [c] []
  | more {acc : Nat} (c : SerialPort.RawRead) (cs : List SerialPort.RawRead)
      (res : List Byte) : acc < maxBytes →
      c.size = min 1024 (maxBytes - acc) → c.timeoutMs = timeoutMs →
      1 ≤ c.ret → c.ret ≤ (c.size : Int) → (c.data.length : Int) = c.ret →
      ReadRun maxBytes timeoutMs (acc + c.data.length) cs res →
      ReadRun maxBytes timeoutMs acc (c :: cs) (c.data ++ res)

/-- The kernel descriptor of the handle is valid exactly when the handle is
open: an open handle's descriptor is the one descriptor the process holds, and
with a closed handle the process holds none. -/
def DescriptorValid {σ : Type} (s : State σ) : Prop :=
  held s.world.log = (if s.port.isOpen then [s.port.fd_] else []) ∧
  (s.port.fd_ ∈ held s.world.log ↔ s.port.isOpen = true)

/-- The handle is closed and records no device path. -/
def ClosedNoPath {σ : Type} (s : State σ) : Prop :=
  s.port.isOpen = false ∧ s.port.device_ = ""

/-- The handle is closed and both its device path and its last-error are empty. -/
def ClosedClean {σ : Type} (s : State σ) : Prop :=
  s.port.isOpen = false ∧ s.port.device_ = "" ∧ s.port.lastError_ = ""

/-! ## Theorems -/

variable {σ : Type}

/-! ### The handle's state -/

theorem isOpen_false_iff (p : SerialPort) : p.isOpen = false ↔ p.fd_ = -1 := by
  simp [SerialPort.isOpen]

theorem isOpen_true_iff (p : SerialPort) : p.isOpen = true ↔ p.fd_ ≠ -1 := by
  simp [SerialPort.isOpen]

/-! ### The read timeout (C1) -/

/-- The timer value `setReadTimeout` computes for a request that fits the
8-bit cell is the quotient itself. -/
theorem vtime_in_range (t : Int) (h0 : 0 ≤ t) (hlt : t < 25600) :
    toCcT (t.tdiv 100) = (t / 100).toNat := by
  unfold toCcT
  rw [Int.tdiv_eq_ediv h0 (by decide)]
  congr 1
  omega

/-- What a raw `read` asks of the kernel once the attribute probe succeeded:
the probe, the installation of the block with the timer cell rewritten, and,
if that installation succeeded, the system read. -/
theorem read_log_of_getattr (os : OS σ) (size : Nat) (t : Int) (p : SerialPort) (w : World σ)
    (o : Termios) (k1 : σ) (hopen : p.isOpen = true)
    (hget : os.tcgetattr p.fd_ w.kernel = (.ok o, k1)) :
    ∃ rest, (rest = [] ∨ rest = [Event.sysRead p.fd_ size]) ∧
      (SerialPort.read os size t p w).world.log =
        w.log ++ Event.tcgetattr p.fd_ ::
          Event.tcsetattr p.fd_ TCSANOW
            (if (o.setCc VTIME (toCcT (t.tdiv 100))).c_cc VTIME = 0 ∧ t > 0
              then (o.setCc VTIME (toCcT (t.tdiv 100))).setCc VTIME (toCcT 1)
              else o.setCc VTIME (toCcT (t.tdiv 100))) :: rest := by
  unfold SerialPort.read SerialPort.setReadTimeout
  simp only [hopen, callTcgetattr, hget, callTcsetattr, Bool.not_true, Bool.false_eq_true,
    if_false]
  generalize (if (o.setCc VTIME (toCcT (t.tdiv 100))).c_cc VTIME = 0 ∧ t > 0
              then (o.setCc VTIME (toCcT (t.tdiv 100))).setCc VTIME (toCcT 1)
              else o.setCc VTIME (toCcT (t.tdiv 100))) = O
  rcases hset : os.tcsetattr p.fd_ TCSANOW O k1 with ⟨_ | _, k2⟩
  · exact ⟨[], Or.inl rfl, by simp⟩
  · refine ⟨[Event.sysRead p.fd_ size], Or.inr rfl, ?_⟩
    simp only [callRead, Bool.not_true, Bool.false_eq_true, if_false]
    rcases hrd : os.sys_read p.fd_ size k2 with ⟨_ | _ | _, k3⟩ <;> simp

/-- The timer cell of the block that `setReadTimeout` builds, `v` being the
value first stored in the cell. -/
theorem timer_cell (o : Termios) (v : Nat) (t : Int) :
    (if (o.setCc VTIME v).c_cc VTIME = 0 ∧ t > 0
      then (o.setCc VTIME v).setCc VTIME (toCcT 1)
      else o.setCc VTIME v).c_cc VTIME =
    if v = 0 ∧ t > 0 then 1 else v := by
  have h1 : (o.setCc VTIME v).c_cc VTIME = v := by simp [Termios.setCc]
  have h2 : toCcT 1 = 1 := by decide
  rw [h1, h2]
  split <;> simp [Termios.setCc]

/-- C1, for requests that fit the 8-bit cell: on an open handle whose
attribute probe succeeds, a raw `read` with `0 ≤ timeoutMs < 25600` installs,
before its system read, a block whose timer cell is `timeoutMs / 100`, or 1
when that quotient is 0 and the request is positive; so the cell is 0 for a
request of 0, and for a positive request the timer in milliseconds is the
larger of 100 and the request rounded down to a multiple of 100. -/
theorem read_timer_value (os : OS σ) (size : Nat) (t : Int) (p : SerialPort) (w : World σ)
    (o : Termios) (k1 : σ) (hopen : p.isOpen = true)
    (hget : os.tcgetattr p.fd_ w.kernel = (.ok o, k1)) (h0 : 0 ≤ t) (hlt : t < 25600) :
    ∃ o1 rest, (rest = [] ∨ rest = [Event.sysRead p.fd_ size]) ∧
      (SerialPort.read os size t p w).world.log =
        w.log ++ Event.tcgetattr p.fd_ :: Event.tcsetattr p.fd_ TCSANOW o1 :: rest ∧
      o1.c_cc VTIME = (if t / 100 = 0 ∧ 0 < t then 1 else (t / 100).toNat) ∧
      (t = 0 → o1.c_cc VTIME = 0) ∧
      (0 < t → ((o1.c_cc VTIME : Nat) : Int) * 100 = max 100 (t - t % 100)) := by
  obtain ⟨rest, hrest, hlog⟩ := read_log_of_getattr os size t p w o k1 hopen hget
  have hcell := timer_cell o (toCcT (t.tdiv 100)) t
  rw [vtime_in_range t h0 hlt] at hcell hlog
  have hq : (t / 100).toNat = 0 ↔ t / 100 = 0 := by omega
  refine ⟨_, rest, hrest, hlog, ?_, ?_, ?_⟩
  · rw [hcell]
    simp only [hq, gt_iff_lt]
  · intro ht
    rw [hcell, ht]
    decide
  · intro ht
    rw [hcell]
    by_cases hz : t / 100 = 0
    · have h1 : (t / 100).toNat = 0 := hq.mpr hz
      simp only [h1, ht, gt_iff_lt, and_self, if_true]
      omega
    · have h1 : ¬ (t / 100).toNat = 0 := fun h => hz (hq.mp h)
      simp only [h1, false_and, if_false]
      omega

/-- A request of 250 ms on an open handle: the timer cell installed is 2. -/
theorem read_timer_value_witness :
    ∃ o1 rest, (rest = [] ∨ rest = [Event.sysRead port3.fd_ 16]) ∧
      (SerialPort.read (stubOS okStub) 16 250 port3 w0).world.log =
        w0.log ++ Event.tcgetattr port3.fd_ :: Event.tcsetattr port3.fd_ TCSANOW o1 :: rest ∧
      o1.c_cc VTIME = (if (250 : Int) / 100 = 0 ∧ (0 : Int) < 250 then 1
        else ((250 : Int) / 100).toNat) ∧
      ((250 : Int) = 0 → o1.c_cc VTIME = 0) ∧
      ((0 : Int) < 250 → ((o1.c_cc VTIME : Nat) : Int) * 100 = max 100 (250 - 250 % 100)) :=
  read_timer_value (stubOS okStub) 16 250 port3 w0 zeroTermios () rfl rfl (by decide)
    (by decide)

/-- C1 as stated fails at 25600 ms: the quotient is 256, the 8-bit cell holds
0 after the store, and the cell installed is 1. -/
theorem read_timer_value_wraps :
    installedVtime (SerialPort.read (stubOS okStub) 16 25600 port3 w0).world.log = [1] ∧
    ¬ ((1 : Int) = if (25600 : Int) / 100 = 0 ∧ (0 : Int) < 25600 then 1 else 25600 / 100) := by
  decide

/-! ### The attribute block of `configure` (C2, C3) -/

/-- Both speed calls accept every enumerator of `BaudRate` and leave the speed
constant alone in a zeroed control word. -/
theorem speeds_of_zeroed (o : Termios) (b : BaudRate) :
    ∃ io oo, cfsetispeed { o with c_cflag := 0, c_iflag := 0, c_oflag := 0, c_lflag := 0 }
        b.toSpeed = .ok io ∧ cfsetospeed io b.toSpeed = .ok oo ∧
      oo.c_cflag = b.toSpeed ∧ oo.c_iflag = 0 ∧ oo.c_oflag = 0 ∧ oo.c_lflag = 0 := by
  cases b <;> refine ⟨_, _, rfl, rfl, ?_, ?_, ?_, ?_⟩ <;> first | rfl | (dsimp only; decide)

/-- The input word of the block `configureModes` builds. -/
theorem configureModes_iflag (o : Termios) (db : DataBits) (par : Parity) (sb : StopBits)
    (fc : FlowControl) :
    (SerialPort.configureModes o db par sb fc).c_iflag =
      (if fc = FlowControl.SOFTWARE then o.c_iflag ||| (IXON ||| IXOFF) else o.c_iflag) &&&
        compl32 (IXON ||| IXOFF ||| IXANY ||| ICRNL ||| INLCR ||| IGNCR) := by
  cases par <;> cases sb <;> cases fc <;> rfl

/-- What a successful `configure` asked of the kernel: the attribute probe,
the installation of the block built by `configureModes` over the speeds, and
the settling pause. -/
theorem configure_installs (os : OS σ) (b : BaudRate) (db : DataBits) (par : Parity)
    (sb : StopBits) (fc : FlowControl) (p : SerialPort) (w : World σ)
    (h : (SerialPort.configure os b db par sb fc p w).ret = true) :
    ∃ oo, oo.c_cflag = b.toSpeed ∧ oo.c_iflag = 0 ∧ oo.c_oflag = 0 ∧ oo.c_lflag = 0 ∧
      (SerialPort.configure os b db par sb fc p w).world.log =
        w.log ++ [Event.tcgetattr p.fd_,
          Event.tcsetattr p.fd_ TCSANOW (SerialPort.configureModes oo db par sb fc),
          Event.usleep 100000] := by
  unfold SerialPort.configure at h ⊢
  by_cases hopen : p.isOpen = true
  · simp only [hopen, Bool.not_true, Bool.false_eq_true, if_false, callTcgetattr] at h ⊢
    rcases hget : os.tcgetattr p.fd_ w.kernel with ⟨_ | o, k1⟩
    · simp [hget] at h
    · obtain ⟨io, oo, hio, hoo, h1, h2, h3, h4⟩ := speeds_of_zeroed o b
      simp only [hget, hio, hoo, SerialPort.setTerminalAttributes, callTcsetattr] at h ⊢
      refine ⟨oo, h1, h2, h3, h4, ?_⟩
      rcases hset : os.tcsetattr p.fd_ TCSANOW
        (SerialPort.configureModes oo db par sb fc) k1 with ⟨_ | _, k2⟩
      · simp [hset] at h
      · simp [callUsleep]
  · simp [hopen] at h

/-- C2: with software flow control selected, the block a successful
`configure` installs has the XON and the XOFF bit of the input word clear
(the raw-mode mask removes them after they were set), whatever the other
four fields are. -/
theorem configure_software_flow_bits_cleared (os : OS σ) (b : BaudRate) (db : DataBits)
    (par : Parity) (sb : StopBits) (p : SerialPort) (w : World σ)
    (h : (SerialPort.configure os b db par sb FlowControl.SOFTWARE p w).ret = true) :
    ∃ o, (SerialPort.configure os b db par sb FlowControl.SOFTWARE p w).world.log =
        w.log ++ [Event.tcgetattr p.fd_, Event.tcsetattr p.fd_ TCSANOW o, Event.usleep 100000] ∧
      o.c_iflag &&& IXON = 0 ∧ o.c_iflag &&& IXOFF = 0 := by
  obtain ⟨oo, -, h2, -, -, hlog⟩ := configure_installs os b db par sb FlowControl.SOFTWARE p w h
  refine ⟨_, hlog, ?_, ?_⟩ <;> rw [configureModes_iflag, h2] <;> decide

/-- The failing input of C2 on an operating system where every call succeeds:
`configure(115200, 8, none, one, software)` returns true and the input word it
installed is zero. -/
theorem configure_software_flow_bits_cleared_witness :
    (SerialPort.configure (stubOS okStub) BaudRate.BAUD_115200 DataBits.BITS_8 Parity.NONE
        StopBits.ONE FlowControl.SOFTWARE port3 w0).ret = true ∧
    ∃ o, (SerialPort.configure (stubOS okStub) BaudRate.BAUD_115200 DataBits.BITS_8 Parity.NONE
        StopBits.ONE FlowControl.SOFTWARE port3 w0).world.log =
        w0.log ++ [Event.tcgetattr port3.fd_, Event.tcsetattr port3.fd_ TCSANOW o,
          Event.usleep 100000] ∧
      o.c_iflag &&& IXON = 0 ∧ o.c_iflag &&& IXOFF = 0 :=
  ⟨by decide, configure_software_flow_bits_cleared (stubOS okStub) BaudRate.BAUD_115200
    DataBits.BITS_8 Parity.NONE StopBits.ONE port3 w0 (by decide)⟩

/-- C4, with the message as the code spells it: on a closed handle, with any
arguments and any operating system, `configure`, the four forms of `write`,
the raw `read`, the string `read`, `drain`, `flush`, `flushInput` and
`flushOutput` each return their failure value (`false`, `-1`, the empty
string) and leave last-error equal to "Serial port is not open". -/
theorem closed_handle_guard (os : OS σ) (p : SerialPort) (w : World σ) (b : BaudRate)
    (db : DataBits) (par : Parity) (sb : StopBits) (fc : FlowControl) (data : List Byte)
    (wait : Bool) (size maxBytes : Nat) (timeoutMs : Int) (hclosed : p.isOpen = false) :
    ((SerialPort.configure os b db par sb fc p w).ret = false ∧
      (SerialPort.configure os b db par sb fc p w).port.lastError_ = "Serial port is not open") ∧
    ((SerialPort.write os data p w).ret = -1 ∧
      (SerialPort.write os data p w).port.lastError_ = "Serial port is not open") ∧
    ((SerialPort.write_string os data p w).ret = -1 ∧
      (SerialPort.write_string os data p w).port.lastError_ = "Serial port is not open") ∧
    ((SerialPort.write_wait os data wait p w).ret = -1 ∧
      (SerialPort.write_wait os data wait p w).port.lastError_ = "Serial port is not open") ∧
    ((SerialPort.write_string_wait os data wait p w).ret = -1 ∧
      (SerialPort.write_string_wait os data wait p w).port.lastError_ =
        "Serial port is not open") ∧
    ((SerialPort.read os size timeoutMs p w).ret.1 = -1 ∧
      (SerialPort.read os size timeoutMs p w).port.lastError_ = "Serial port is not open") ∧
    ((SerialPort.read_string os maxBytes timeoutMs p w).ret = .ok [] ∧
      (SerialPort.read_string os maxBytes timeoutMs p w).port.lastError_ =
        "Serial port is not open") ∧
    ((SerialPort.drain os p w).ret = false ∧
      (SerialPort.drain os p w).port.lastError_ = "Serial port is not open") ∧
    ((SerialPort.flush os p w).ret = false ∧
      (SerialPort.flush os p w).port.lastError_ = "Serial port is not open") ∧
    ((SerialPort.flushInput os p w).ret = false ∧
      (SerialPort.flushInput os p w).port.lastError_ = "Serial port is not open") ∧
    ((SerialPort.flushOutput os p w).ret = false ∧
      (SerialPort.flushOutput os p w).port.lastError_ = "Serial port is not open") := by
  have hw : SerialPort.write os data p w =
      ⟨-1, p.setError "Serial port is not open", w⟩ := by
    simp [SerialPort.write, hclosed]
  have hww : SerialPort.write_wait os data wait p w =
      ⟨-1, p.setError "Serial port is not open", w⟩ := by
    simp [SerialPort.write_wait, hw]
  refine ⟨?_, ?_, ?_, ?_, ?_, ?_, ?_, ?_, ?_, ?_, ?_⟩
  · simp [SerialPort.configure, hclosed, SerialPort.setError]
  · simp [hw, SerialPort.setError]
  · simp [SerialPort.write_string, hw, SerialPort.setError]
  · simp [hww, SerialPort.setError]
  · simp [SerialPort.write_string_wait, hww, SerialPort.setError]
  · simp [SerialPort.read, hclosed, SerialPort.setError]
  · simp [SerialPort.read_string, SerialPort.read_string_traced, hclosed, SerialPort.setError,
      Except.map]
  · simp [SerialPort.drain, hclosed, SerialPort.setError]
  · simp [SerialPort.flush, hclosed, SerialPort.setError]
  · simp [SerialPort.flushInput, hclosed, SerialPort.setError]
  · simp [SerialPort.flushOutput, hclosed, SerialPort.setError]

/-- The guard on a freshly constructed handle. -/
theorem closed_handle_guard_witness :
    ((SerialPort.drain (stubOS okStub) SerialPort.new w0).ret = false ∧
      (SerialPort.drain (stubOS okStub) SerialPort.new w0).port.lastError_ =
        "Serial port is not open") ∧
    ((SerialPort.read_string (stubOS okStub) 16 1000 SerialPort.new w0).ret = .ok [] ∧
      (SerialPort.read_string (stubOS okStub) 16 1000 SerialPort.new w0).port.lastError_ =
        "Serial port is not open") :=
  have h := closed_handle_guard (stubOS okStub) SerialPort.new w0 BaudRate.BAUD_115200
    DataBits.BITS_8 Parity.NONE StopBits.ONE FlowControl.NONE [112, 105, 110, 103] true 16 16
    1000 (by decide)
  ⟨h.2.2.2.2.2.2.2.1, h.2.2.2.2.2.2.1⟩

/-- C4 as stated fails on the spelling of the message: after `drain` on a
freshly constructed handle last-error is not "serial port is not open". -/
theorem closed_handle_message_spelling :
    (SerialPort.drain (stubOS okStub) SerialPort.new w0).ret = false ∧
    (SerialPort.drain (stubOS okStub) SerialPort.new w0).port.lastError_ ≠
      "serial port is not open" := by
  decide

/-! ### Closing (C5) -/

/-- C5: after `close`, from any state of the handle and under any operating
system, the handle is not open and its device path and last-error are empty;
and closing again changes nothing, neither in the handle nor in the world. -/
theorem close_clears_and_is_idempotent (os : OS σ) (p : SerialPort) (w : World σ) :
    (SerialPort.close os p w).port.isOpen = false ∧
    (SerialPort.close os p w).port.device_ = "" ∧
    (SerialPort.close os p w).port.lastError_ = "" ∧
    SerialPort.close os (SerialPort.close os p w).port (SerialPort.close os p w).world =
      SerialPort.close os p w := by
  by_cases h : p.fd_ = -1
  · simp [SerialPort.close, h, SerialPort.isOpen]
  · simp [SerialPort.close, h, SerialPort.isOpen]

/-! ### Opening (C6) -/

theorem held_append (log es : List Event) :
    held (log ++ es) = es.foldl heldStep (held log) := by
  simp [held, List.foldl_append]

theorem held_snoc (log : List Event) (e : Event) :
    held (log ++ [e]) = heldStep (held log) e := by
  simp [held_append]

theorem openRet_ok_ne (fd : Nat) : ((fd : Int) = -1) = False := by
  simp only [eq_iff_iff, iff_false]
  omega

/-- Giving up after acquisition releases the descriptor: the descriptors held
are those held before the `::open` that returned it. -/
theorem held_openAbort (os : OS σ) (p : SerialPort) (msg : String) (w : World σ) :
    (SerialPort.openAbort os p msg w).ret = false ∧
    (SerialPort.openAbort os p msg w).port.isOpen = false ∧
    (SerialPort.openAbort os p msg w).port.lastError_ = msg ∧
    held (SerialPort.openAbort os p msg w).world.log = (held w.log).erase p.fd_ := by
  simp [SerialPort.openAbort, SerialPort.isOpen, SerialPort.setError, callClose, held_snoc,
    heldStep]

/-- C6: `open` on a closed handle, for every path and every operating system.
It returns true only if the acquisition, the terminal check, the attribute
probe, the flag read and the flag installation all succeeded; whenever it
returns false the handle is closed afterwards and the descriptors held are
those held before the call; last-error is "Unable to open serial device:
path - message" when the acquisition failed and "Device is not a terminal
device: path" when the device is not a terminal. -/
theorem open_failure_semantics (os : OS σ) (device : String) (p : SerialPort) (w : World σ)
    (hclosed : p.isOpen = false) :
    ((SerialPort.open_ os device p w).ret = true →
      ∃ fd k1 k2 t k3 fl k4 k5,
        os.sys_open device (O_RDWR ||| O_NOCTTY ||| O_NONBLOCK) w.kernel = (.ok fd, k1) ∧
        os.isatty (fd : Int) k1 = (true, k2) ∧
        os.tcgetattr (fd : Int) k2 = (.ok t, k3) ∧
        os.fcntl_getfl (fd : Int) k3 = (.ok fl, k4) ∧
        os.fcntl_setfl (fd : Int) (fl &&& compl32 O_NONBLOCK) k4 = (.ok (), k5)) ∧
    ((SerialPort.open_ os device p w).ret = false →
      (SerialPort.open_ os device p w).port.isOpen = false ∧
      held (SerialPort.open_ os device p w).world.log = held w.log) ∧
    (∀ e k1, os.sys_open device (O_RDWR ||| O_NOCTTY ||| O_NONBLOCK) w.kernel = (.error e, k1) →
      (SerialPort.open_ os device p w).ret = false ∧
      (SerialPort.open_ os device p w).port.lastError_ =
        "Unable to open serial device: " ++ device ++ " - " ++ e) ∧
    (∀ fd k1 k2,
      os.sys_open device (O_RDWR ||| O_NOCTTY ||| O_NONBLOCK) w.kernel = (.ok fd, k1) →
      os.isatty (fd : Int) k1 = (false, k2) →
      (SerialPort.open_ os device p w).ret = false ∧
      (SerialPort.open_ os device p w).port.lastError_ =
        "Device is not a terminal device: " ++ device) := by
  unfold SerialPort.open_
  simp only [hclosed, Bool.false_eq_true, if_false, callOpen]
  rcases hopen : os.sys_open device (O_RDWR ||| O_NOCTTY ||| O_NONBLOCK) w.kernel
    with ⟨e | fd, k1⟩
  · simp [SerialPort.isOpen, SerialPort.setError, held_append, heldStep, openRet]
  · simp only [callIsatty]
    rcases htty : os.isatty (fd : Int) k1 with ⟨_ | _, k2⟩
    · simp [held_openAbort, held_append, heldStep, openRet, openRet_ok_ne]
    · have hno : ∀ (msg : String) (fd1 : Nat) (k1a k2a : σ), fd = fd1 → k1 = k1a →
          os.isatty (fd1 : Int) k1a = (false, k2a) →
          msg = "Device is not a terminal device: " ++ device := by
        rintro msg fd1 k1a k2a rfl rfl h
        rw [htty] at h
        simp at h
      simp only [callTcgetattr]
      rcases hget : os.tcgetattr (fd : Int) k2 with ⟨e | t, k3⟩
      · simp [held_openAbort, held_append, heldStep, openRet, openRet_ok_ne]
        exact hno _
      · simp only [callFcntlGetfl]
        rcases hfl : os.fcntl_getfl (fd : Int) k3 with ⟨e | fl, k4⟩
        · simp [held_openAbort, held_append, heldStep, openRet, openRet_ok_ne]
          exact hno _
        · simp only [callFcntlSetfl]
          rcases hset : os.fcntl_setfl (fd : Int) (fl &&& compl32 O_NONBLOCK) k4
            with ⟨e | u, k5⟩
          · simp [held_openAbort, held_append, heldStep, openRet, openRet_ok_ne]
            exact hno _
          · simp only [true_implies, Bool.true_eq_false, false_implies, true_and]
            refine ⟨⟨fd, k1, k2, t, k3, fl, k4, k5, rfl, htty, hget, hfl, hset⟩, ?_, ?_⟩
            · rintro e k1a h
              simp at h
            · rintro fd1 k1a k2a h1 h2
              simp only [Prod.mk.injEq, Except.ok.injEq] at h1
              obtain ⟨rfl, rfl⟩ := h1
              rw [htty] at h2
              simp at h2

/-- A handle that is closed, whose open failed on a device that is no terminal. -/
theorem open_failure_semantics_witness :
    (SerialPort.open_ (stubOS notTtyStub) "/dev/null" SerialPort.new w0).ret = false ∧
    (SerialPort.open_ (stubOS notTtyStub) "/dev/null" SerialPort.new w0).port.isOpen = false ∧
    held (SerialPort.open_ (stubOS notTtyStub) "/dev/null" SerialPort.new w0).world.log =
      held w0.log ∧
    (SerialPort.open_ (stubOS notTtyStub) "/dev/null" SerialPort.new w0).port.lastError_ =
      "Device is not a terminal device: /dev/null" :=
  have h := open_failure_semantics (stubOS notTtyStub) "/dev/null" SerialPort.new w0
    (by decide)
  have hf := h.2.2.2 3 () () rfl rfl
  ⟨hf.1, (h.2.1 hf.1).1, (h.2.1 hf.1).2, hf.2⟩

/-! ### The frame of the other operations (C7) -/

theorem Frame.refl (p : SerialPort) (w : World σ) : Frame p w p w :=
  ⟨rfl, rfl, rfl, rfl⟩

theorem Frame.trans {p p1 p2 : SerialPort} {w w1 w2 : World σ} (h1 : Frame p w p1 w1)
    (h2 : Frame p1 w1 p2 w2) : Frame p w p2 w2 :=
  ⟨h2.1.trans h1.1, h2.2.1.trans h1.2.1, h2.2.2.1.trans h1.2.2.1, h2.2.2.2.trans h1.2.2.2⟩

/-- Recording an error message is inside the frame. -/
theorem Frame.setError (p : SerialPort) (w : World σ) (msg : String) :
    Frame p w (p.setError msg) w :=
  ⟨rfl, rfl, rfl, rfl⟩

theorem frame_setTerminalAttributes (os : OS σ) (o : Termios) (p : SerialPort) (w : World σ) :
    Frame p w (SerialPort.setTerminalAttributes os o p w).port
      (SerialPort.setTerminalAttributes os o p w).world := by
  unfold SerialPort.setTerminalAttributes
  simp only [callTcsetattr]
  rcases os.tcsetattr p.fd_ TCSANOW o w.kernel with ⟨_ | _, k⟩ <;>
    simp [Frame, SerialPort.setError, SerialPort.isOpen, callUsleep, held_append, heldStep]

theorem frame_configure (os : OS σ) (b : BaudRate) (db : DataBits) (par : Parity)
    (sb : StopBits) (fc : FlowControl) (p : SerialPort) (w : World σ) :
    Frame p w (SerialPort.configure os b db par sb fc p w).port
      (SerialPort.configure os b db par sb fc p w).world := by
  unfold SerialPort.configure
  rcases Bool.eq_false_or_eq_true p.isOpen with hopen | hopen
  · simp only [hopen, Bool.not_true, Bool.false_eq_true, if_false, callTcgetattr]
    rcases os.tcgetattr p.fd_ w.kernel with ⟨_ | o, k1⟩
    · simp [Frame, SerialPort.setError, SerialPort.isOpen, held_append, heldStep]
    · obtain ⟨io, oo, hio, hoo, -⟩ := speeds_of_zeroed o b
      simp only [hio, hoo]
      refine Frame.trans ?_ (frame_setTerminalAttributes os _ p _)
      simp [Frame, held_append, heldStep]
  · simp only [hopen, Bool.not_false, if_true]
    exact Frame.setError p w _

theorem frame_write (os : OS σ) (data : List Byte) (p : SerialPort) (w : World σ) :
    Frame p w (SerialPort.write os data p w).port (SerialPort.write os data p w).world := by
  unfold SerialPort.write
  rcases Bool.eq_false_or_eq_true p.isOpen with hopen | hopen
  · simp only [hopen, Bool.not_true, Bool.false_eq_true, if_false, callWrite]
    rcases os.sys_write p.fd_ data w.kernel with ⟨_ | _, k1⟩ <;>
      simp [Frame, SerialPort.setError, SerialPort.isOpen, held_append, heldStep]
  · simp only [hopen, Bool.not_false, if_true]
    exact Frame.setError p w _

theorem frame_drain (os : OS σ) (p : SerialPort) (w : World σ) :
    Frame p w (SerialPort.drain os p w).port (SerialPort.drain os p w).world := by
  unfold SerialPort.drain
  rcases Bool.eq_false_or_eq_true p.isOpen with hopen | hopen
  · simp only [hopen, Bool.not_true, Bool.false_eq_true, if_false, callTcdrain]
    rcases os.tcdrain p.fd_ w.kernel with ⟨_ | _, k1⟩ <;>
      simp [Frame, SerialPort.setError, SerialPort.isOpen, held_append, heldStep]
  · simp only [hopen, Bool.not_false, if_true]
    exact Frame.setError p w _

theorem frame_write_wait (os : OS σ) (data : List Byte) (wait : Bool) (p : SerialPort)
    (w : World σ) :
    Frame p w (SerialPort.write_wait os data wait p w).port
      (SerialPort.write_wait os data wait p w).world := by
  unfold SerialPort.write_wait
  simp only []
  split
  · split
    · exact (frame_write os data p w).trans
        ((frame_drain os _ _).trans (Frame.setError _ _ _))
    · exact (frame_write os data p w).trans (frame_drain os _ _)
  · exact frame_write os data p w

theorem frame_setReadTimeout (os : OS σ) (t : Int) (p : SerialPort) (w : World σ) :
    Frame p w (SerialPort.setReadTimeout os t p w).port
      (SerialPort.setReadTimeout os t p w).world := by
  unfold SerialPort.setReadTimeout
  rcases Bool.eq_false_or_eq_true p.isOpen with hopen | hopen
  · simp only [hopen, Bool.not_true, Bool.false_eq_true, if_false, callTcgetattr]
    rcases os.tcgetattr p.fd_ w.kernel with ⟨_ | o, k1⟩
    · simp [Frame, SerialPort.setError, SerialPort.isOpen, held_append, heldStep]
    · simp only [callTcsetattr]
      generalize (if (o.setCc VTIME (toCcT (t.tdiv 100))).c_cc VTIME = 0 ∧ t > 0
              then (o.setCc VTIME (toCcT (t.tdiv 100))).setCc VTIME (toCcT 1)
              else o.setCc VTIME (toCcT (t.tdiv 100))) = O
      rcases os.tcsetattr p.fd_ TCSANOW O k1 with ⟨_ | _, k2⟩ <;>
        simp [Frame, SerialPort.setError, SerialPort.isOpen, held_append, heldStep]
  · simp only [hopen, Bool.not_false, if_true]
    exact Frame.setError p w _

theorem frame_read (os : OS σ) (size : Nat) (t : Int) (p : SerialPort) (w : World σ) :
    Frame p w (SerialPort.read os size t p w).port (SerialPort.read os size t p w).world := by
  unfold SerialPort.read
  rcases Bool.eq_false_or_eq_true p.isOpen with hopen | hopen
  · simp only [hopen, Bool.not_true, Bool.false_eq_true, if_false]
    have ht := frame_setReadTimeout os t p w
    split
    · exact ht
    · refine ht.trans ?_
      simp only [callRead]
      rcases os.sys_read (SerialPort.setReadTimeout os t p w).port.fd_ size
        (SerialPort.setReadTimeout os t p w).world.kernel with ⟨_ | _ | _, k1⟩ <;>
        simp [Frame, SerialPort.setError, SerialPort.isOpen, held_append, heldStep]
  · simp only [hopen, Bool.not_false, if_true]
    exact Frame.setError p w _

theorem frame_readLoop (os : OS σ) (maxBytes : Nat) (t : Int) :
    ∀ (n : Nat) (result : List Byte) (totalRead : Nat) (calls : List SerialPort.RawRead)
      (p : SerialPort) (w : World σ), maxBytes - totalRead = n →
      Frame p w (SerialPort.readLoop os maxBytes t result totalRead calls p w).port
        (SerialPort.readLoop os maxBytes t result totalRead calls p w).world := by
  intro n
  induction n using Nat.strong_induction_on with
  | _ n ih =>
    intro result totalRead calls p w hn
    rw [SerialPort.readLoop]
    by_cases hlt : totalRead < maxBytes
    · simp only [hlt, if_true]
      have hr := frame_read os (min 1024 (maxBytes - totalRead)) t p w
      by_cases hneg : (SerialPort.read os (min 1024 (maxBytes - totalRead)) t p w).ret.1 < 0
      · simp only [hneg, if_true]
        exact hr
      · by_cases hz : (SerialPort.read os (min 1024 (maxBytes - totalRead)) t p w).ret.1 = 0
        · simp only [hz, lt_self_iff_false, if_false, if_true]
          exact hr
        · simp only [hneg, hz, if_false]
          refine hr.trans (ih _ ?_ _ _ _ _ _ rfl)
          omega
    · simp only [hlt, if_false]
      exact Frame.refl p w

theorem frame_tcflush (os : OS σ) (q : Nat) (p : SerialPort) (w : World σ) (msg : String) :
    Frame p w
      (match callTcflush os p.fd_ q w with
        | (.error e, w) => (⟨false, p.setError (msg ++ e), w⟩ : Out Bool σ)
        | (.ok _, w) => ⟨true, p, w⟩).port
      (match callTcflush os p.fd_ q w with
        | (.error e, w) => (⟨false, p.setError (msg ++ e), w⟩ : Out Bool σ)
        | (.ok _, w) => ⟨true, p, w⟩).world := by
  simp only [callTcflush]
  rcases os.tcflush p.fd_ q w.kernel with ⟨_ | _, k1⟩ <;>
    simp [Frame, SerialPort.setError, SerialPort.isOpen, held_append, heldStep]

/-- C7: every operation other than `close` and an `open` issued on a closed
handle leaves the descriptor member, the open/closed state, the device path
and the descriptors held as they were, from every state of the handle and
under every operating system: a second `open` on an open handle (which
returns false), `configure`, the four forms of `write`, both forms of `read`,
`drain`, the three flushes, `available` and `getLastError`. -/
theorem frame_of_operations (os : OS σ) (p : SerialPort) (w : World σ) (device : String)
    (b : BaudRate) (db : DataBits) (par : Parity) (sb : StopBits) (fc : FlowControl)
    (data : List Byte) (wait : Bool) (size maxBytes : Nat) (timeoutMs : Int) :
    (p.isOpen = true → (SerialPort.open_ os device p w).ret = false ∧
      Frame p w (SerialPort.open_ os device p w).port (SerialPort.open_ os device p w).world) ∧
    Frame p w (SerialPort.configure os b db par sb fc p w).port
      (SerialPort.configure os b db par sb fc p w).world ∧
    Frame p w (SerialPort.write os data p w).port (SerialPort.write os data p w).world ∧
    Frame p w (SerialPort.write_string os data p w).port
      (SerialPort.write_string os data p w).world ∧
    Frame p w (SerialPort.write_wait os data wait p w).port
      (SerialPort.write_wait os data wait p w).world ∧
    Frame p w (SerialPort.write_string_wait os data wait p w).port
      (SerialPort.write_string_wait os data wait p w).world ∧
    Frame p w (SerialPort.read os size timeoutMs p w).port
      (SerialPort.read os size timeoutMs p w).world ∧
    Frame p w (SerialPort.read_string os maxBytes timeoutMs p w).port
      (SerialPort.read_string os maxBytes timeoutMs p w).world ∧
    Frame p w (SerialPort.drain os p w).port (SerialPort.drain os p w).world ∧
    Frame p w (SerialPort.flush os p w).port (SerialPort.flush os p w).world ∧
    Frame p w (SerialPort.flushInput os p w).port (SerialPort.flushInput os p w).world ∧
    Frame p w (SerialPort.flushOutput os p w).port (SerialPort.flushOutput os p w).world ∧
    Frame p w (SerialPort.available os p w).port (SerialPort.available os p w).world ∧
    Frame p w (SerialPort.getLastError p w).port (SerialPort.getLastError p w).world := by
  refine ⟨?_, frame_configure os b db par sb fc p w, frame_write os data p w,
    frame_write os data p w, frame_write_wait os data wait p w,
    frame_write_wait os data wait p w, frame_read os size timeoutMs p w, ?_,
    frame_drain os p w, ?_, ?_, ?_, ?_, Frame.refl p w⟩
  · intro hopen
    unfold SerialPort.open_
    simp only [hopen, if_true]
    exact ⟨trivial, Frame.setError p w _⟩
  · unfold SerialPort.read_string SerialPort.read_string_traced
    rcases Bool.eq_false_or_eq_true p.isOpen with hopen | hopen
    · simp only [hopen, Bool.not_true, Bool.false_eq_true, if_false, stringReserve]
      rcases (os.string_reserve maxBytes w.kernel).1 with _ | ex
      · exact (Frame.refl p w).trans (frame_readLoop os maxBytes timeoutMs _ _ _ _ _
          ⟨(os.string_reserve maxBytes w.kernel).2, w.log⟩ rfl)
      · exact ⟨rfl, rfl, rfl, rfl⟩
    · simp only [hopen, Bool.not_false, if_true]
      exact Frame.setError p w _
  · unfold SerialPort.flush
    rcases Bool.eq_false_or_eq_true p.isOpen with hopen | hopen
    · simp only [hopen, Bool.not_true, Bool.false_eq_true, if_false]
      exact frame_tcflush os TCIOFLUSH p w _
    · simp only [hopen, Bool.not_false, if_true]
      exact Frame.setError p w _
  · unfold SerialPort.flushInput
    rcases Bool.eq_false_or_eq_true p.isOpen with hopen | hopen
    · simp only [hopen, Bool.not_true, Bool.false_eq_true, if_false]
      exact frame_tcflush os TCIFLUSH p w _
    · simp only [hopen, Bool.not_false, if_true]
      exact Frame.setError p w _
  · unfold SerialPort.flushOutput
    rcases Bool.eq_false_or_eq_true p.isOpen with hopen | hopen
    · simp only [hopen, Bool.not_true, Bool.false_eq_true, if_false]
      exact frame_tcflush os TCOFLUSH p w _
    · simp only [hopen, Bool.not_false, if_true]
      exact Frame.setError p w _
  · unfold SerialPort.available
    rcases Bool.eq_false_or_eq_true p.isOpen with hopen | hopen
    · simp only [hopen, Bool.not_true, Bool.false_eq_true, if_false, callFionread]
      rcases os.fionread p.fd_ w.kernel with ⟨_ | _, k1⟩ <;>
        simp [Frame, held_append, heldStep]
    · simp only [hopen, Bool.not_false, if_true]
      exact Frame.refl p w

/-- A second `open` on the handle open on descriptor 3 fails and moves nothing. -/
theorem frame_of_operations_witness :
    (SerialPort.open_ (stubOS okStub) "/dev/ttyS0" port3 w0).ret = false ∧
    Frame port3 w0 (SerialPort.open_ (stubOS okStub) "/dev/ttyS0" port3 w0).port
      (SerialPort.open_ (stubOS okStub) "/dev/ttyS0" port3 w0).world :=
  (frame_of_operations (stubOS okStub) port3 w0 "/dev/ttyS0" BaudRate.BAUD_115200
    DataBits.BITS_8 Parity.NONE StopBits.ONE FlowControl.NONE [] true 16 16 1000).1 (by decide)

/-! ### Writing and waiting (C8) -/

/-- A `write` that reports at least one byte was made on an open handle and
left the handle as it was. -/
theorem write_pos (os : OS σ) (data : List Byte) (p : SerialPort) (w : World σ)
    (h : 1 ≤ (SerialPort.write os data p w).ret) :
    p.isOpen = true ∧ (SerialPort.write os data p w).port = p := by
  unfold SerialPort.write at h ⊢
  rcases Bool.eq_false_or_eq_true p.isOpen with hopen | hopen
  · simp only [hopen, Bool.not_true, Bool.false_eq_true, if_false, callWrite] at h ⊢
    rcases hwr : os.sys_write p.fd_ data w.kernel with ⟨_ | _, k1⟩
    · simp [hwr] at h
    · simp
  · simp [hopen] at h

/-- C8: for every buffer and every operating system, `write(bytes, len, true)`
returns exactly what `write(bytes, len)` returns.  When that value is below 1
no drain is attempted: handle and world are those the plain write left.  When
it is at least 1 exactly one drain is requested, on the handle's descriptor;
if that drain fails the value returned is unchanged and last-error is the
diagnostic "Data written but failed to wait for transmission completion: "
followed by the drain's own message, and if it succeeds the handle is as the
plain write left it. -/
theorem write_wait_semantics (os : OS σ) (data : List Byte) (p : SerialPort) (w : World σ) :
    (SerialPort.write_wait os data true p w).ret = (SerialPort.write os data p w).ret ∧
    ((SerialPort.write os data p w).ret < 1 →
      (SerialPort.write_wait os data true p w).port = (SerialPort.write os data p w).port ∧
      (SerialPort.write_wait os data true p w).world = (SerialPort.write os data p w).world) ∧
    (1 ≤ (SerialPort.write os data p w).ret →
      (SerialPort.write_wait os data true p w).world.log =
        (SerialPort.write os data p w).world.log ++ [Event.tcdrain p.fd_]) ∧
    (∀ e k, 1 ≤ (SerialPort.write os data p w).ret →
      os.tcdrain p.fd_ (SerialPort.write os data p w).world.kernel = (.error e, k) →
      (SerialPort.write_wait os data true p w).port.lastError_ =
        "Data written but failed to wait for transmission completion: " ++
          ("Failed to drain output buffer: " ++ e)) ∧
    (∀ k, 1 ≤ (SerialPort.write os data p w).ret →
      os.tcdrain p.fd_ (SerialPort.write os data p w).world.kernel = (.ok (), k) →
      (SerialPort.write_wait os data true p w).port = (SerialPort.write os data p w).port) := by
  by_cases hpos : 1 ≤ (SerialPort.write os data p w).ret
  · obtain ⟨hopen, hport⟩ := write_pos os data p w hpos
    have hgt : (SerialPort.write os data p w).ret > 0 := by omega
    have hnot : ¬ (SerialPort.write os data p w).ret < 1 := by omega
    unfold SerialPort.write_wait SerialPort.drain
    simp only [hgt, hport, hopen, hpos, hnot, and_self, if_true, Bool.not_true,
      Bool.false_eq_true, if_false, callTcdrain, true_implies, false_implies, true_and]
    rcases hd : os.tcdrain p.fd_ (SerialPort.write os data p w).world.kernel with ⟨e | u, k1⟩
    · simp [SerialPort.setError]
    · simp
  · have hgt : ¬ (SerialPort.write os data p w).ret > 0 := by omega
    have hlt : (SerialPort.write os data p w).ret < 1 := by omega
    unfold SerialPort.write_wait
    simp only [hgt, hpos, hlt, false_and, if_false, true_implies, false_implies, and_self,
      implies_true]

/-- Four bytes accepted and a drain that fails: the count is still returned
and last-error carries the diagnostic and the drain's message. -/
theorem write_wait_semantics_witness :
    (SerialPort.write_wait (stubOS noDrainStub) [112, 105, 110, 103] true port3 w0).ret = 4 ∧
    (SerialPort.write_wait (stubOS noDrainStub) [112, 105, 110, 103] true port3 w0).port.lastError_
      = "Data written but failed to wait for transmission completion: " ++
          ("Failed to drain output buffer: " ++ "Input/output error") :=
  have h := write_wait_semantics (stubOS noDrainStub) [112, 105, 110, 103] port3 w0
  ⟨h.1.trans (by decide), h.2.2.2.1 "Input/output error" () (by decide) rfl⟩

/-! ### The string read (C9) -/

theorem toInt32_of_lt (n : Nat) (h : n < 2147483648) : toInt32 n = (n : Int) := by
  unfold toInt32
  have h1 : n % 4294967296 = n := Nat.mod_eq_of_lt (by omega)
  simp [h1, h]

/-- A run that starts with no more than `maxBytes` bytes accumulated never
accumulates more than `maxBytes`. -/
theorem ReadRun.length_le {maxBytes : Nat} {t : Int} {acc : Nat}
    {cs : List SerialPort.RawRead} {res : List Byte} (h : ReadRun maxBytes t acc cs res)
    (hacc : acc ≤ maxBytes) : acc + res.length ≤ maxBytes := by
  induction h with
  | full _ => simpa using hacc
  | stop c _ _ _ _ => simpa using hacc
  | @more a c cs res hlt hsize _ h1 hle hlen _ ih =>
    have hstep : a + c.data.length ≤ maxBytes := by
      have h2 : (c.data.length : Int) ≤ (c.size : Int) := by omega
      have h3 : c.data.length ≤ c.size := by exact_mod_cast h2
      omega
    have h4 := ih hstep
    simp only [List.length_append]
    omega

theorem loopChunk_le (pick : Nat → Nat → Nat) (queued size : Nat) :
    loopChunk pick queued size ≤ min size queued := by
  unfold loopChunk
  split
  · exact Nat.zero_le _
  · rename_i h
    have h1 : 1 ≤ min size queued := by
      simp only [not_or] at h
      omega
    omega

theorem loopChunk_pos (pick : Nat → Nat → Nat) (queued size : Nat) (hq : 0 < queued)
    (hs : 0 < size) : 1 ≤ loopChunk pick queued size := by
  unfold loopChunk
  have h : ¬ (queued = 0 ∨ size = 0) := by omega
  simp only [h, if_false]
  omega

/-- A raw read on the loopback line, from an open handle: it returns the
leading `loopChunk` bytes of the queue and leaves the others queued. -/
theorem loopback_read (cap : Nat) (pick : Nat → Nat → Nat) (size : Nat) (t : Int)
    (p : SerialPort) (w : World Loopback) (hopen : p.isOpen = true) :
    (SerialPort.read (loopbackOS cap pick) size t p w).ret =
      (toInt32 (w.kernel.queue.take (loopChunk pick w.kernel.queue.length size)).length,
        w.kernel.queue.take (loopChunk pick w.kernel.queue.length size)) ∧
    (SerialPort.read (loopbackOS cap pick) size t p w).port = p ∧
    (SerialPort.read (loopbackOS cap pick) size t p w).world.kernel.queue =
      w.kernel.queue.drop (loopChunk pick w.kernel.queue.length size) := by
  simp [SerialPort.read, SerialPort.setReadTimeout, hopen, callTcgetattr, callTcsetattr,
    callRead, loopbackOS]

/-- The loop of the string read on the loopback line: when the bytes queued
fit under the limit, it appends all of them, in order. -/
theorem loopback_readLoop (cap : Nat) (pick : Nat → Nat → Nat) (maxBytes : Nat) (t : Int)
    (p : SerialPort) (hopen : p.isOpen = true) :
    ∀ (m : Nat) (result : List Byte) (totalRead : Nat) (calls : List SerialPort.RawRead)
      (w : World Loopback), w.kernel.queue.length = m →
      w.kernel.queue.length ≤ maxBytes - totalRead →
      (SerialPort.readLoop (loopbackOS cap pick) maxBytes t result totalRead calls p w).ret.1 =
        result ++ w.kernel.queue := by
  intro m
  induction m using Nat.strong_induction_on with
  | _ m ih =>
    intro result totalRead calls w hm hfit
    rw [SerialPort.readLoop]
    by_cases hlt : totalRead < maxBytes
    · simp only [hlt, if_true]
      obtain ⟨hret, hport, hqueue⟩ :=
        loopback_read cap pick (min 1024 (maxBytes - totalRead)) t p w hopen
      have hle := loopChunk_le pick w.kernel.queue.length (min 1024 (maxBytes - totalRead))
      have hpos : 0 < w.kernel.queue.length →
          1 ≤ loopChunk pick w.kernel.queue.length (min 1024 (maxBytes - totalRead)) :=
        fun h => loopChunk_pos pick _ _ h (by omega)
      generalize SerialPort.read (loopbackOS cap pick) (min 1024 (maxBytes - totalRead)) t p w
        = r at hret hport hqueue ⊢
      generalize loopChunk pick w.kernel.queue.length (min 1024 (maxBytes - totalRead)) = n
        at hret hqueue hle hpos
      have hlen : (List.take n w.kernel.queue).length = n := by
        rw [List.length_take]
        omega
      have h1 : r.ret.1 = (n : Int) := by
        rw [hret]
        simp only [hlen]
        exact toInt32_of_lt n (by omega)
      have h2 : r.ret.2 = List.take n w.kernel.queue := by rw [hret]
      by_cases hq : w.kernel.queue.length = 0
      · have hn : n = 0 := by omega
        have hz : r.ret.1 = 0 := by rw [h1, hn]; rfl
        have hnil : w.kernel.queue = [] := List.eq_nil_of_length_eq_zero hq
        simp [hz, hnil]
      · have hn : 1 ≤ n := hpos (by omega)
        have hneg : ¬ r.ret.1 < 0 := by omega
        have hz : ¬ r.ret.1 = 0 := by omega
        have htn : r.ret.1.toNat = n := by rw [h1]; simp
        simp only [hneg, hz, if_false, htn, h2, hport]
        rw [ih (w.kernel.queue.length - n) (by omega) _ _ _ r.world
          (by rw [hqueue, List.length_drop]) (by rw [hqueue, List.length_drop]; omega)]
        rw [hqueue, List.take_take, Nat.min_self, List.append_assoc, List.take_append_drop]
    · simp only [hlt, if_false]
      have hnil : w.kernel.queue = [] := List.eq_nil_of_length_eq_zero (by omega)
      simp [hnil]

/-- A waited write on a loopback line with room for the whole string, which
is no longer than what one write call transfers: the value returned is the
length, and the string is queued behind what was queued. -/
theorem loopback_write_wait (cap : Nat) (pick : Nat → Nat → Nat) (data : List Byte)
    (p : SerialPort) (w : World Loopback) (hopen : p.isOpen = true)
    (hmax : data.length ≤ MAX_RW_COUNT) (hcap : w.kernel.queue.length + data.length ≤ cap) :
    (SerialPort.write_string_wait (loopbackOS cap pick) data true p w).ret =
      (data.length : Int) ∧
    (SerialPort.write_string_wait (loopbackOS cap pick) data true p w).world.kernel =
      { w.kernel with queue := w.kernel.queue ++ data } := by
  have hmin : min (min data.length MAX_RW_COUNT) (cap - w.kernel.queue.length) = data.length := by
    omega
  have hint : toInt32 data.length = (data.length : Int) :=
    toInt32_of_lt _ (by unfold MAX_RW_COUNT at hmax; omega)
  have hw : SerialPort.write (loopbackOS cap pick) data p w =
      ⟨(data.length : Int), p,
        ⟨{ w.kernel with queue := w.kernel.queue ++ data },
          w.log ++ [Event.sysWrite p.fd_ data]⟩⟩ := by
    have hmin1 : min data.length (min MAX_RW_COUNT (cap - w.kernel.queue.length)) =
        data.length := by
      omega
    have hroom : data.length ≤ cap - w.kernel.queue.length := by omega
    simp [SerialPort.write, hopen, callWrite, loopbackOS, hmin, hmin1, hint, hmax, hroom]
  unfold SerialPort.write_string_wait SerialPort.write_wait
  simp only [hw, and_true]
  split
  · simp [SerialPort.drain, hopen, callTcdrain, loopbackOS]
  · exact ⟨rfl, rfl⟩

/-- The string read on a loopback line, from an open handle, with a limit that
`reserve` accepts and that covers what is queued: it returns all of it. -/
theorem loopback_read_string (cap : Nat) (pick : Nat → Nat → Nat) (n : Nat) (t : Int)
    (p : SerialPort) (w : World Loopback) (hopen : p.isOpen = true)
    (hn : w.kernel.queue.length ≤ n) (hmax : n ≤ STRING_MAX_SIZE)
    (hmem : n ≤ w.kernel.memory) :
    (SerialPort.read_string (loopbackOS cap pick) n t p w).ret = .ok w.kernel.queue := by
  have hres : reserveWith w.kernel.memory n = none := by
    have h1 : ¬ STRING_MAX_SIZE < n := by omega
    have h2 : ¬ w.kernel.memory < n := by omega
    simp [reserveWith, h1, h2]
  have hsr : stringReserve (loopbackOS cap pick) n w = (none, w) := by
    simp [stringReserve, loopbackOS, hres]
  unfold SerialPort.read_string SerialPort.read_string_traced
  simp only [hopen, Bool.not_true, Bool.false_eq_true, if_false, hsr, Except.map]
  rw [loopback_readLoop cap pick n t p hopen _ [] 0 [] w rfl (by omega)]
  rfl

/-- C10, on a line that is idle before the write and for a read limit that
`reserve` accepts: on a loopback line with nothing queued and a capacity that
covers the string, with any policy for how much each read hands out,
`write(B, true)` on one open handle returns the length of B, and a following
string read of `n` bytes on the other open handle, with `n` at least the
length of B and no more than `reserve` accepts (at most `max_size()` and at
most the memory left), returns exactly B, whatever the timeout. -/
theorem loopback_round_trip (cap : Nat) (pick : Nat → Nat → Nat) (B : List Byte) (n : Nat)
    (t : Int) (X Y : SerialPort) (w : World Loopback) (hX : X.isOpen = true)
    (hY : Y.isOpen = true) (hidle : w.kernel.queue = []) (hcap : B.length ≤ loopCapacity cap)
    (hn : B.length ≤ n) (hmax : n ≤ STRING_MAX_SIZE) (hmem : n ≤ w.kernel.memory) :
    (SerialPort.write_string_wait (loopbackOS cap pick) B true X w).ret = (B.length : Int) ∧
    (SerialPort.read_string (loopbackOS cap pick) n t Y
      (SerialPort.write_string_wait (loopbackOS cap pick) B true X w).world).ret = .ok B := by
  have hc : B.length ≤ MAX_RW_COUNT ∧ B.length ≤ cap := by
    unfold loopCapacity at hcap
    omega
  obtain ⟨hret, hqueue⟩ := loopback_write_wait cap pick B X w hX hc.1
    (by rw [hidle]; simpa using hc.2)
  refine ⟨hret, ?_⟩
  rw [loopback_read_string cap pick n t Y _ hY (by rw [hqueue, hidle]; simpa using hn) hmax
    (by rw [hqueue]; exact hmem), hqueue, hidle]
  rfl

/-- The scenario of the specification: "ping" written with wait on one end,
then a string read of 16 bytes with a timeout of 1000 ms on the other. -/
theorem loopback_round_trip_witness :
    (SerialPort.write_string_wait (loopbackOS 4096 (fun _ s => s)) [112, 105, 110, 103] true
      port3 idleLine).ret = 4 ∧
    (SerialPort.read_string (loopbackOS 4096 (fun _ s => s)) 16 1000 port4
      (SerialPort.write_string_wait (loopbackOS 4096 (fun _ s => s)) [112, 105, 110, 103]
        true port3 idleLine).world).ret = .ok [112, 105, 110, 103] :=
  loopback_round_trip 4096 (fun _ s => s) [112, 105, 110, 103] 16 1000 port3 port4 idleLine
    rfl rfl rfl (by decide) (by decide) (by decide) (by decide)

/-- C10 as stated fails in two ways.  With a read limit that `reserve`
rejects, `2 ^ 64 - 1`, the string read that follows the write of "ping" throws
`std::length_error` instead of returning "ping".  And on a line where "ping"
is already queued, the write of "ab" is followed by a string read that returns
"pingab", not "ab". -/
theorem loopback_round_trip_fails :
    (SerialPort.read_string (loopbackOS 4096 (fun _ s => s)) 18446744073709551615 1000 port4
      (SerialPort.write_string_wait (loopbackOS 4096 (fun _ s => s)) [112, 105, 110, 103]
        true port3 idleLine).world).ret = .error Thrown.length_error ∧
    ((SerialPort.write_string_wait (loopbackOS 4096 (fun _ s => s)) [97, 98] true port3
        pingLine).ret = 2 ∧
      (SerialPort.read_string (loopbackOS 4096 (fun _ s => s)) 16 1000 port4
        (SerialPort.write_string_wait (loopbackOS 4096 (fun _ s => s)) [97, 98] true port3
          pingLine).world).ret = .ok [112, 105, 110, 103, 97, 98]) := by
  obtain ⟨hret, hqueue⟩ := loopback_write_wait 4096 (fun _ s => s) [97, 98] port3 pingLine rfl
    (by decide) (by decide)
  refine ⟨rfl, hret, ?_⟩
  rw [loopback_read_string 4096 (fun _ s => s) 16 1000 port4 _ rfl
    (by rw [hqueue]; decide) (by decide) (by rw [hqueue]; decide), hqueue]
  rfl

/-! ### A positive timeout never polls (C11) -/

/-- A value narrowed to the 8-bit cell is below 256. -/
theorem toCcT_lt (x : Int) : toCcT x < 256 := by
  unfold toCcT
  omega

/-- C11: on an open handle whose attribute probe succeeds, a raw `read` with
any positive timeout, however large, installs before its system read a block
whose inter-byte timer cell is not zero: it holds at least one tick of 100 ms
(and, the cell being 8 bits wide, at most 255). -/
theorem read_timer_nonzero (os : OS σ) (size : Nat) (t : Int) (p : SerialPort) (w : World σ)
    (o : Termios) (k1 : σ) (hopen : p.isOpen = true)
    (hget : os.tcgetattr p.fd_ w.kernel = (.ok o, k1)) (hpos : 0 < t) :
    ∃ o1 rest, (rest = [] ∨ rest = [Event.sysRead p.fd_ size]) ∧
      (SerialPort.read os size t p w).world.log =
        w.log ++ Event.tcgetattr p.fd_ :: Event.tcsetattr p.fd_ TCSANOW o1 :: rest ∧
      o1.c_cc VTIME ≠ 0 ∧ 1 ≤ o1.c_cc VTIME ∧ o1.c_cc VTIME ≤ 255 := by
  obtain ⟨rest, hrest, hlog⟩ := read_log_of_getattr os size t p w o k1 hopen hget
  have hcell := timer_cell o (toCcT (t.tdiv 100)) t
  have hlt := toCcT_lt (t.tdiv 100)
  refine ⟨_, rest, hrest, hlog, ?_, ?_, ?_⟩ <;> rw [hcell] <;> split <;> omega

/-- A request of 25600 ms, whose quotient 256 does not fit the cell: the cell
installed is still at least 1. -/
theorem read_timer_nonzero_witness :
    ∃ o1 rest, (rest = [] ∨ rest = [Event.sysRead port3.fd_ 16]) ∧
      (SerialPort.read (stubOS okStub) 16 25600 port3 w0).world.log =
        w0.log ++ Event.tcgetattr port3.fd_ :: Event.tcsetattr port3.fd_ TCSANOW o1 :: rest ∧
      o1.c_cc VTIME ≠ 0 ∧ 1 ≤ o1.c_cc VTIME ∧ o1.c_cc VTIME ≤ 255 :=
  read_timer_nonzero (stubOS okStub) 16 25600 port3 w0 zeroTermios () rfl rfl (by decide)

/-! ### The reachable states (C12) -/

theorem frame_read_string (os : OS σ) (maxBytes : Nat) (t : Int) (p : SerialPort)
    (w : World σ) :
    Frame p w (SerialPort.read_string os maxBytes t p w).port
      (SerialPort.read_string os maxBytes t p w).world := by
  unfold SerialPort.read_string SerialPort.read_string_traced
  rcases Bool.eq_false_or_eq_true p.isOpen with hopen | hopen
  · simp only [hopen, Bool.not_true, Bool.false_eq_true, if_false, stringReserve]
    rcases (os.string_reserve maxBytes w.kernel).1 with _ | ex
    · exact (Frame.refl p w).trans (frame_readLoop os maxBytes t _ _ _ _ _
        ⟨(os.string_reserve maxBytes w.kernel).2, w.log⟩ rfl)
    · exact ⟨rfl, rfl, rfl, rfl⟩
  · simp only [hopen, Bool.not_false, if_true]
    exact Frame.setError p w _

theorem frame_flush (os : OS σ) (p : SerialPort) (w : World σ) :
    Frame p w (SerialPort.flush os p w).port (SerialPort.flush os p w).world := by
  unfold SerialPort.flush
  rcases Bool.eq_false_or_eq_true p.isOpen with hopen | hopen
  · simp only [hopen, Bool.not_true, Bool.false_eq_true, if_false]
    exact frame_tcflush os TCIOFLUSH p w _
  · simp only [hopen, Bool.not_false, if_true]
    exact Frame.setError p w _

theorem frame_flushInput (os : OS σ) (p : SerialPort) (w : World σ) :
    Frame p w (SerialPort.flushInput os p w).port (SerialPort.flushInput os p w).world := by
  unfold SerialPort.flushInput
  rcases Bool.eq_false_or_eq_true p.isOpen with hopen | hopen
  · simp only [hopen, Bool.not_true, Bool.false_eq_true, if_false]
    exact frame_tcflush os TCIFLUSH p w _
  · simp only [hopen, Bool.not_false, if_true]
    exact Frame.setError p w _

theorem frame_flushOutput (os : OS σ) (p : SerialPort) (w : World σ) :
    Frame p w (SerialPort.flushOutput os p w).port (SerialPort.flushOutput os p w).world := by
  unfold SerialPort.flushOutput
  rcases Bool.eq_false_or_eq_true p.isOpen with hopen | hopen
  · simp only [hopen, Bool.not_true, Bool.false_eq_true, if_false]
    exact frame_tcflush os TCOFLUSH p w _
  · simp only [hopen, Bool.not_false, if_true]
    exact Frame.setError p w _

theorem frame_available (os : OS σ) (p : SerialPort) (w : World σ) :
    Frame p w (SerialPort.available os p w).port (SerialPort.available os p w).world := by
  unfold SerialPort.available
  rcases Bool.eq_false_or_eq_true p.isOpen with hopen | hopen
  · simp only [hopen, Bool.not_true, Bool.false_eq_true, if_false, callFionread]
    rcases os.fionread p.fd_ w.kernel with ⟨_ | _, k1⟩ <;>
      simp [Frame, held_append, heldStep]
  · simp only [hopen, Bool.not_false, if_true]
    exact Frame.refl p w

/-- An `open` on a handle that is already open is inside the frame. -/
theorem frame_open_again (os : OS σ) (device : String) (p : SerialPort) (w : World σ)
    (hopen : p.isOpen = true) :
    Frame p w (SerialPort.open_ os device p w).port (SerialPort.open_ os device p w).world := by
  unfold SerialPort.open_
  simp only [hopen, if_true]
  exact Frame.setError p w _

/-- An `open` on a closed handle either fails, leaving the handle closed and
the descriptors held as they were, or succeeds, leaving the handle open on a
descriptor that is added to those held. -/
theorem open_closed_held (os : OS σ) (device : String) (p : SerialPort) (w : World σ)
    (hclosed : p.isOpen = false) :
    ((SerialPort.open_ os device p w).port.isOpen = false ∧
      held (SerialPort.open_ os device p w).world.log = held w.log) ∨
    ((SerialPort.open_ os device p w).port.isOpen = true ∧
      held (SerialPort.open_ os device p w).world.log =
        (SerialPort.open_ os device p w).port.fd_ :: held w.log) := by
  unfold SerialPort.open_
  simp only [hclosed, Bool.false_eq_true, if_false, callOpen]
  rcases os.sys_open device (O_RDWR ||| O_NOCTTY ||| O_NONBLOCK) w.kernel with ⟨e | fd, k1⟩
  · left
    simp [SerialPort.isOpen, SerialPort.setError, held_append, heldStep, openRet]
  · simp only [callIsatty]
    rcases os.isatty (fd : Int) k1 with ⟨_ | _, k2⟩
    · left
      simp [held_openAbort, held_append, heldStep, openRet, openRet_ok_ne]
    · simp only [callTcgetattr]
      rcases os.tcgetattr (fd : Int) k2 with ⟨e | t, k3⟩
      · left
        simp [held_openAbort, held_append, heldStep, openRet, openRet_ok_ne]
      · simp only [callFcntlGetfl]
        rcases os.fcntl_getfl (fd : Int) k3 with ⟨e | fl, k4⟩
        · left
          simp [held_openAbort, held_append, heldStep, openRet, openRet_ok_ne]
        · simp only [callFcntlSetfl]
          rcases os.fcntl_setfl (fd : Int) (fl &&& compl32 O_NONBLOCK) k4 with ⟨e | u, k5⟩
          · left
            simp [held_openAbort, held_append, heldStep, openRet, openRet_ok_ne]
          · right
            simp [SerialPort.isOpen, held_append, heldStep, openRet, openRet_ok_ne]

/-- What `close` leaves: a closed handle with both strings empty, and the
handle's descriptor, if it was open, removed from those held. -/
theorem close_held (os : OS σ) (p : SerialPort) (w : World σ) :
    (SerialPort.close os p w).port = ⟨-1, "", ""⟩ ∧
    held (SerialPort.close os p w).world.log =
      (if p.isOpen then (held w.log).erase p.fd_ else held w.log) := by
  by_cases h : p.fd_ = -1
  · simp [SerialPort.close, h, SerialPort.isOpen]
  · simp [SerialPort.close, h, SerialPort.isOpen, callClose, held_append, heldStep]

/-- Every operation that is neither `close` nor an `open` on a closed handle
is inside the frame. -/
theorem step_frame (os : OS σ) (s : State σ) (op : Op)
    (hop : op.isOpenCall = false ∨ s.port.isOpen = true) (hclose : op ≠ Op.close) :
    Frame s.port s.world (step os s op).port (step os s op).world := by
  cases op with
  | open_ device =>
    rcases hop with h | h
    · simp [Op.isOpenCall] at h
    · exact frame_open_again os device s.port s.world h
  | close => exact absurd rfl hclose
  | configure b db par sb fc => exact frame_configure os b db par sb fc s.port s.world
  | write data => exact frame_write os data s.port s.world
  | write_string data => exact frame_write os data s.port s.world
  | write_wait data wait => exact frame_write_wait os data wait s.port s.world
  | write_string_wait data wait => exact frame_write_wait os data wait s.port s.world
  | read size t => exact frame_read os size t s.port s.world
  | read_string maxBytes t => exact frame_read_string os maxBytes t s.port s.world
  | drain => exact frame_drain os s.port s.world
  | flush => exact frame_flush os s.port s.world
  | flushInput => exact frame_flushInput os s.port s.world
  | flushOutput => exact frame_flushOutput os s.port s.world
  | available => exact frame_available os s.port s.world
  | getLastError => exact Frame.refl s.port s.world

/-- The strong form of descriptor validity: the descriptors held are the
handle's own when it is open and none when it is closed. -/
theorem descriptorValid_of_held (s : State σ)
    (h : held s.world.log = (if s.port.isOpen then [s.port.fd_] else [])) :
    DescriptorValid s := by
  refine ⟨h, ?_⟩
  rw [h]
  rcases Bool.eq_false_or_eq_true s.port.isOpen with hopen | hopen <;> simp [hopen]

/-- One call keeps the descriptors held in step with the handle. -/
theorem step_held (os : OS σ) (s : State σ) (op : Op)
    (h : held s.world.log = (if s.port.isOpen then [s.port.fd_] else [])) :
    held (step os s op).world.log =
      (if (step os s op).port.isOpen then [(step os s op).port.fd_] else []) := by
  by_cases hclose : op = Op.close
  · subst hclose
    obtain ⟨hport, hheld⟩ := close_held os s.port s.world
    have hc : (⟨-1, "", ""⟩ : SerialPort).isOpen = false := rfl
    simp only [step, Out.state, hport, hheld, h, hc]
    rcases Bool.eq_false_or_eq_true s.port.isOpen with hopen | hopen <;>
      simp only [hopen] <;> simp
  · by_cases hop : op.isOpenCall = false ∨ s.port.isOpen = true
    · obtain ⟨hfd, hio, -, hheld⟩ := step_frame os s op hop hclose
      rw [hheld, hio, hfd, h]
    · have hcl : s.port.isOpen = false := by
        rcases Bool.eq_false_or_eq_true s.port.isOpen with hopen | hopen
        · exact absurd (Or.inr hopen) hop
        · exact hopen
      cases op with
      | open_ device =>
        simp only [hcl, Bool.false_eq_true, if_false] at h
        rcases open_closed_held os device s.port s.world hcl with ⟨h1, h2⟩ | ⟨h1, h2⟩
        · simp [step, Out.state, h1, h2, h]
        · simp [step, Out.state, h1, h2, h]
      | _ => exact absurd (Or.inl rfl) hop

/-- Every sequence of calls keeps the descriptors held in step with the handle. -/
theorem run_held (os : OS σ) (ops : List Op) :
    ∀ (s : State σ), held s.world.log = (if s.port.isOpen then [s.port.fd_] else []) →
      held (run os ops s).world.log =
        (if (run os ops s).port.isOpen then [(run os ops s).port.fd_] else []) := by
  induction ops with
  | nil => intro s h; exact h
  | cons op ops ih => intro s h; exact ih (step os s op) (step_held os s op h)

/-- Calls other than `open` keep a handle closed and without a device path. -/
theorem run_closedNoPath (os : OS σ) (ops : List Op) :
    ∀ (s : State σ), ClosedNoPath s → (∀ op ∈ ops, op.isOpenCall = false) →
      ClosedNoPath (run os ops s) := by
  induction ops with
  | nil => intro s h _; exact h
  | cons op ops ih =>
    intro s h hops
    refine ih (step os s op) ?_ (fun o ho => hops o (List.mem_cons_of_mem _ ho))
    by_cases hclose : op = Op.close
    · subst hclose
      simp [step, Out.state, ClosedNoPath, (close_held os s.port s.world).1, SerialPort.isOpen]
    · obtain ⟨-, hio, hdev, -⟩ :=
        step_frame os s op (Or.inl (hops op (List.mem_cons_self _ _))) hclose
      exact ⟨hio.trans h.1, hdev.trans h.2⟩

/-- The calls that write no message keep a handle closed with both strings empty. -/
theorem run_closedClean (os : OS σ) (ops : List Op) :
    ∀ (s : State σ), ClosedClean s → (∀ op ∈ ops, op.isSilent = true) →
      ClosedClean (run os ops s) := by
  induction ops with
  | nil => intro s h _; exact h
  | cons op ops ih =>
    intro s h hops
    refine ih (step os s op) ?_ (fun o ho => hops o (List.mem_cons_of_mem _ ho))
    have hsil := hops op (List.mem_cons_self _ _)
    cases op with
    | close =>
      simp [step, Out.state, ClosedClean, (close_held os s.port s.world).1, SerialPort.isOpen]
    | available =>
      simp only [step, Out.state, SerialPort.available, h.1, Bool.not_false, if_true]
      exact h
    | getLastError => exact h
    | _ => simp [Op.isSilent] at hsil

theorem run_append (os : OS σ) (xs ys : List Op) (s : State σ) :
    run os (xs ++ ys) s = run os ys (run os xs s) := by
  simp [run, List.foldl_append]

/-- The state right after a `close` is closed with both strings empty. -/
theorem closedClean_after_close (os : OS σ) (s : State σ) :
    ClosedClean (step os s Op.close) := by
  simp [step, Out.state, ClosedClean, (close_held os s.port s.world).1, SerialPort.isOpen]

/-- C12, as far as the code keeps it: in every state reachable from a freshly
constructed handle by any sequence of calls, under any operating system, the
kernel descriptor is valid exactly when the handle is open.  The device path
and last-error are both empty in the fresh state and right after every
`close`; from either, as long as no `open` is called the handle stays closed
with an empty device path, and as long as only `close`, `available` and
`getLastError` are called last-error stays empty too. -/
theorem reachable_invariant (os : OS σ) (k : σ) (pre suf : List Op) :
    DescriptorValid (run os pre (fresh k)) ∧
    ClosedClean (fresh k) ∧
    ClosedClean (run os (pre ++ [Op.close]) (fresh k)) ∧
    ((∀ op ∈ suf, op.isOpenCall = false) →
      ClosedNoPath (run os suf (fresh k)) ∧
      ClosedNoPath (run os (pre ++ Op.close :: suf) (fresh k))) ∧
    ((∀ op ∈ suf, op.isSilent = true) →
      ClosedClean (run os suf (fresh k)) ∧
      ClosedClean (run os (pre ++ Op.close :: suf) (fresh k))) := by
  have hfresh : ClosedClean (fresh k) := ⟨rfl, rfl, rfl⟩
  have hclose : ClosedClean (run os (pre ++ [Op.close]) (fresh k)) := by
    rw [run_append]
    exact closedClean_after_close os _
  have hsplit : run os (pre ++ Op.close :: suf) (fresh k) =
      run os suf (run os (pre ++ [Op.close]) (fresh k)) := by
    rw [← run_append, List.append_assoc, List.singleton_append]
  refine ⟨descriptorValid_of_held _ (run_held os pre (fresh k) rfl), hfresh, hclose, ?_, ?_⟩
  · intro hsuf
    rw [hsplit]
    exact ⟨run_closedNoPath os suf _ ⟨hfresh.1, hfresh.2.1⟩ hsuf,
      run_closedNoPath os suf _ ⟨hclose.1, hclose.2.1⟩ hsuf⟩
  · intro hsuf
    rw [hsplit]
    exact ⟨run_closedClean os suf _ hfresh hsuf, run_closedClean os suf _ hclose hsuf⟩

/-- A handle opened, written to, closed, then drained and probed: it is closed
and records no device path. -/
theorem reachable_invariant_witness :
    ClosedNoPath (run (stubOS okStub)
      ([Op.open_ "/dev/ttyUSB0", Op.write [112, 105, 110, 103]] ++
        Op.close :: [Op.drain, Op.available]) (fresh ())) :=
  ((reachable_invariant (stubOS okStub) ()
    [Op.open_ "/dev/ttyUSB0", Op.write [112, 105, 110, 103]]
    [Op.drain, Op.available]).2.2.2.1 (by decide)).2

/-- C12 as stated fails in two reachable states.  After `drain` on a fresh
handle the handle is closed and last-error holds the guard's message.  After
an `open` that fails on a device that is no terminal the handle is closed and
both the device path and last-error are non-empty. -/
theorem closed_handle_keeps_strings :
    ((run (stubOS okStub) [Op.drain] (fresh ())).port.isOpen = false ∧
      (run (stubOS okStub) [Op.drain] (fresh ())).port.lastError_ =
        "Serial port is not open") ∧
    ((run (stubOS notTtyStub) [Op.open_ "/dev/null"] (fresh ())).port.isOpen = false ∧
      (run (stubOS notTtyStub) [Op.open_ "/dev/null"] (fresh ())).port.device_ =
        "/dev/null" ∧
      (run (stubOS notTtyStub) [Op.open_ "/dev/null"] (fresh ())).port.lastError_ =
        "Device is not a terminal device: /dev/null") := by
  decide

end Serial
